import Mathlib

/-!
# Verification of `modules/extractor.py` (analise-processos-eb)

Shallow embedding of the extraction engine of `modules/extractor.py`.
Python strings are modelled as `List Char`; Python `None`/optional values as
`Option`; monetary values (Python floats produced by `_parse_valor_br`) as
exact rationals `ℚ`.  Each definition mirrors one Python function or a
clearly delimited stage of one, named after it where Lean allows.
-/

namespace Extractor

/-- Python `str` is modelled as a list of characters. -/
abbrev PyStr := List Char

/-- Whitespace characters recognised by Python's `str.strip()` /
regex `\s` (restricted to the ASCII repertoire used by these documents). -/
def isPySpace (c : Char) : Bool :=
  c = ' ' || c = '\t' || c = '\n' || c = '\r' || c = '\x0b' || c = '\x0c'

/-- Python `str.strip()`: drop whitespace from both ends. -/
def pyStrip (l : PyStr) : PyStr :=
  ((l.dropWhile isPySpace).reverse.dropWhile isPySpace).reverse

/-- Python `str.split(sep)` for a one-character separator: keeps empty
parts, splits at every occurrence. -/
def pySplitChar (sep : Char) : PyStr → List PyStr
  | [] => [[]]
  | c :: rest =>
    match pySplitChar sep rest with
    | [] => [[c]]   -- unreachable: result is always nonempty
    | p :: ps => if c = sep then [] :: p :: ps else (c :: p) :: ps

/-- Python `str.zfill(width)`: left-pad with `'0'` to `width`, keeping a
leading sign character in front of the padding. -/
def pyZfill (width : Nat) (s : PyStr) : PyStr :=
  if width ≤ s.length then s
  else
    match s with
    | c :: rest =>
      if c = '+' || c = '-' then
        c :: (List.replicate (width - s.length) '0' ++ rest)
      else
        List.replicate (width - s.length) '0' ++ s
    | [] => List.replicate width '0'

/-- `l` begins with the digit `9` (Python `nr.startswith("9")`). -/
def startsWith9 : PyStr → Bool
  | '9' :: _ => true
  | _ => false

/-- `_corrigir_numero_pregao` (extractor.py:1071): normalise an auction
number `N/Y` to the institutional 5-digit `90xxx/Y` format.  Mirrors the
source: empty input and inputs that do not split at `/` into exactly two
parts are returned unchanged; the two parts are stripped; a 5-character
number is reassembled as-is; 4 characters starting with `9` get a `0`
inserted after the `9`; at most 3 characters get zero-padded to 3 and
prefixed with `90`; anything else is returned unchanged. -/
def corrigirNumeroPregao (numero : PyStr) : PyStr :=
  if numero = [] then numero
  else
    match pySplitChar '/' numero with
    | [p0, p1] =>
      let nr := pyStrip p0
      let ano := pyStrip p1
      if nr.length = 5 then nr ++ '/' :: ano
      else if nr.length = 4 ∧ startsWith9 nr then
        '9' :: '0' :: nr.drop 1 ++ '/' :: ano
      else if nr.length ≤ 3 then
        '9' :: '0' :: pyZfill 3 nr ++ '/' :: ano
      else numero
    | _ => numero

-- ── Auxiliary lemmas on the string model ──────────────────────────────


theorem pySplitChar_ne_nil (sep : Char) (l : PyStr) : pySplitChar sep l ≠ [] := by
  induction l with
  | nil => simp [pySplitChar]
  | cons c rest ih =>
    simp only [pySplitChar]
    rcases h : pySplitChar sep rest with _ | ⟨p, ps⟩
    · exact absurd h ih
    · by_cases hc : c = sep <;> simp [hc]

theorem mem_pySplitChar_not_sep (sep : Char) (l : PyStr) :
    ∀ p ∈ pySplitChar sep l, sep ∉ p := by
  induction l with
  | nil =>
    intro p hp
    simp [pySplitChar] at hp
    simp [hp]
  | cons c rest ih =>
    intro p hp
    rcases h : pySplitChar sep rest with _ | ⟨q, qs⟩
    · exact absurd h (pySplitChar_ne_nil sep rest)
    · simp only [pySplitChar, h] at hp
      by_cases hc : c = sep
      · simp only [if_pos hc] at hp
        rcases List.mem_cons.mp hp with h1 | h1
        · subst h1; simp
        · exact ih p (h ▸ h1)
      · simp only [if_neg hc] at hp
        rcases List.mem_cons.mp hp with h1 | h1
        · subst h1
          intro hmem
          rcases List.mem_cons.mp hmem with h2 | h2
          · exact hc h2.symm
          · exact ih q (h ▸ List.mem_cons_self q qs) h2
        · exact ih p (h ▸ List.mem_cons_of_mem q h1)

theorem pySplitChar_no_sep (sep : Char) (l : PyStr) (h : sep ∉ l) :
    pySplitChar sep l = [l] := by
  induction l with
  | nil => simp [pySplitChar]
  | cons c rest ih =>
    have hc : ¬(c = sep) := fun hcc => h (by simp [hcc])
    have hrest : sep ∉ rest := fun hm => h (List.mem_cons_of_mem _ hm)
    simp only [pySplitChar]
    rw [ih hrest]
    simp [hc]

theorem pySplitChar_pair (sep : Char) (a b : PyStr) (ha : sep ∉ a) (hb : sep ∉ b) :
    pySplitChar sep (a ++ sep :: b) = [a, b] := by
  induction a with
  | nil =>
    simp only [List.nil_append, pySplitChar]
    rw [pySplitChar_no_sep sep b hb]
    simp
  | cons c rest ih =>
    have hc : ¬(c = sep) := fun hcc => ha (by simp [hcc])
    have hrest : sep ∉ rest := fun hm => ha (List.mem_cons_of_mem _ hm)
    simp only [List.cons_append, pySplitChar, List.append_eq]
    rw [ih hrest]
    simp [hc]

theorem mem_pyStrip {c : Char} {l : PyStr} (h : c ∈ pyStrip l) : c ∈ l := by
  unfold pyStrip at h
  rw [List.mem_reverse] at h
  have h1 := (List.dropWhile_sublist _).mem h
  rw [List.mem_reverse] at h1
  exact (List.dropWhile_sublist _).mem h1

theorem head?_dropWhile_ws (p : Char → Bool) (l : PyStr) :
    ∀ c, (l.dropWhile p).head? = some c → p c = false := by
  induction l with
  | nil => intro c h; simp [List.dropWhile] at h
  | cons d rest ih =>
    intro c h
    by_cases hd : p d
    · rw [List.dropWhile_cons, if_pos hd] at h
      exact ih c h
    · rw [List.dropWhile_cons, if_neg hd] at h
      simp at h
      rw [← h]
      exact Bool.eq_false_iff.mpr hd

theorem getLast?_dropWhile (p : Char → Bool) (l : PyStr)
    (h : l.dropWhile p ≠ []) : (l.dropWhile p).getLast? = l.getLast? := by
  induction l with
  | nil => simp [List.dropWhile] at h
  | cons d rest ih =>
    by_cases hd : p d
    · rw [List.dropWhile_cons, if_pos hd] at h ⊢
      rw [ih h]
      have hrest : rest ≠ [] := by
        intro hr; rw [hr] at h; simp [List.dropWhile] at h
      rcases rest with _ | ⟨x, xs⟩
      · exact absurd rfl hrest
      · exact (List.getLast?_cons_cons).symm
    · rw [List.dropWhile_cons, if_neg hd]

/-- Both ends of a string are free of whitespace. -/
def NoWsEnds (l : PyStr) : Prop :=
  (∀ c, l.head? = some c → isPySpace c = false) ∧
  (∀ c, l.getLast? = some c → isPySpace c = false)

theorem pyStrip_eq_self {l : PyStr} (h : NoWsEnds l) : pyStrip l = l := by
  obtain ⟨h1, h2⟩ := h
  have d1 : l.dropWhile isPySpace = l := by
    rcases l with _ | ⟨c, rest⟩
    · rfl
    · have hc : isPySpace c = false := h1 c rfl
      simp [List.dropWhile_cons, hc]
  unfold pyStrip
  rw [d1]
  have d2 : l.reverse.dropWhile isPySpace = l.reverse := by
    rcases hr : l.reverse with _ | ⟨c, rest⟩
    · rfl
    · have hlc : l.getLast? = some c := by
        rw [← List.head?_reverse, hr]; rfl
      have hc : isPySpace c = false := h2 c hlc
      simp [List.dropWhile_cons, hc]
  rw [d2, List.reverse_reverse]

theorem noWsEnds_pyStrip (l : PyStr) : NoWsEnds (pyStrip l) := by
  constructor
  · intro c hc
    unfold pyStrip at hc
    rw [List.head?_reverse] at hc
    have hne : (l.dropWhile isPySpace).reverse.dropWhile isPySpace ≠ [] := by
      intro hemp; rw [hemp] at hc; simp at hc
    rw [getLast?_dropWhile _ _ hne, List.getLast?_reverse] at hc
    exact head?_dropWhile_ws _ _ c hc
  · intro c hc
    unfold pyStrip at hc
    rw [List.getLast?_reverse] at hc
    exact head?_dropWhile_ws _ _ c hc

theorem pyStrip_idem (l : PyStr) : pyStrip (pyStrip l) = pyStrip l :=
  pyStrip_eq_self (noWsEnds_pyStrip l)

theorem pyZfill_length (w : Nat) (s : PyStr) :
    (pyZfill w s).length = max w s.length := by
  unfold pyZfill
  split
  · omega
  · split
    · split
      · simp only [List.length_cons, List.length_append, List.length_replicate]
        omega
      · simp only [List.length_cons, List.length_append, List.length_replicate]
        omega
    · simp only [List.length_replicate, List.length_nil]
      omega

theorem getLast?_cons_ne_nil (c : Char) {t : PyStr} (h : t ≠ []) :
    (c :: t).getLast? = t.getLast? := by
  rcases t with _ | ⟨x, xs⟩
  · exact absurd rfl h
  · exact List.getLast?_cons_cons

theorem getLast?_replicate_zero {n : Nat} (h : n ≠ 0) :
    (List.replicate n '0').getLast? = some '0' := by
  induction n with
  | zero => exact absurd rfl h
  | succ m ih =>
    rcases Nat.eq_zero_or_pos m with hm | hm
    · subst hm; rfl
    · rw [List.replicate_succ, getLast?_cons_ne_nil]
      · exact ih (by omega)
      · simp [List.replicate_eq_nil_iff]
        omega

theorem replicate_zero_ne_nil {n : Nat} (h : n ≠ 0) :
    List.replicate n '0' ≠ [] := by
  simp [List.replicate_eq_nil_iff]
  exact h

theorem getLast?_pyZfill (w : Nat) (s : PyStr) :
    (pyZfill w s).getLast? = s.getLast? ∨ (pyZfill w s).getLast? = some '0' := by
  rcases s with _ | ⟨c, rest⟩
  · by_cases hle : w ≤ ([] : PyStr).length
    · left
      simp at hle
      subst hle
      rfl
    · right
      rw [pyZfill, if_neg hle]
      exact getLast?_replicate_zero (by simp at hle; omega)
  · by_cases hle : w ≤ (c :: rest).length
    · left; rw [pyZfill, if_pos hle]
    · have hk : w - (c :: rest).length ≠ 0 := by simp at hle ⊢; omega
      by_cases hsign : (c = '+' || c = '-') = true
      · rw [pyZfill, if_neg hle]
        simp only [hsign, if_true]
        rcases rest with _ | ⟨x, xs⟩
        · right
          rw [getLast?_cons_ne_nil _
            (by simp [List.replicate_eq_nil_iff]; simp at hle; omega)]
          simp only [List.append_nil]
          exact getLast?_replicate_zero (by simp at hle ⊢; omega)
        · left
          rw [getLast?_cons_ne_nil _ (by simp),
            List.getLast?_append_of_ne_nil _ (by simp)]
          exact (List.getLast?_cons_cons).symm
      · rw [pyZfill, if_neg hle]
        simp only [hsign, if_false]
        left
        exact List.getLast?_append_of_ne_nil _ (by simp)

theorem mem_pyZfill {c : Char} {w : Nat} {s : PyStr} (h : c ∈ pyZfill w s) :
    c ∈ s ∨ c = '0' := by
  unfold pyZfill at h
  split at h
  · exact Or.inl h
  · split at h
    · rename_i d rest _
      split at h
      · rcases List.mem_cons.mp h with h1 | h1
        · exact Or.inl (h1 ▸ List.mem_cons_self d rest)
        · rcases List.mem_append.mp h1 with h2 | h2
          · exact Or.inr (List.eq_of_mem_replicate h2)
          · exact Or.inl (List.mem_cons_of_mem d h2)
      · rcases List.mem_append.mp h with h2 | h2
        · exact Or.inr (List.eq_of_mem_replicate h2)
        · exact Or.inl h2
    · exact Or.inr (List.eq_of_mem_replicate h)

-- ── Behaviour of the auction-number correction ────────────────────────

theorem corrigir_eval_split (s p0 p1 : PyStr) (hne : s ≠ [])
    (hsplit : pySplitChar '/' s = [p0, p1]) :
    corrigirNumeroPregao s =
      (if (pyStrip p0).length = 5 then pyStrip p0 ++ '/' :: pyStrip p1
       else if (pyStrip p0).length = 4 ∧ startsWith9 (pyStrip p0) then
         '9' :: '0' :: (pyStrip p0).drop 1 ++ '/' :: pyStrip p1
       else if (pyStrip p0).length ≤ 3 then
         '9' :: '0' :: pyZfill 3 (pyStrip p0) ++ '/' :: pyStrip p1
       else s) := by
  simp only [corrigirNumeroPregao, if_neg hne, hsplit]

theorem corrigir_eval_pair (nr ano : PyStr)
    (h1 : '/' ∉ nr) (h2 : '/' ∉ ano)
    (h3 : pyStrip nr = nr) (h4 : pyStrip ano = ano) :
    corrigirNumeroPregao (nr ++ '/' :: ano) =
      (if nr.length = 5 then nr ++ '/' :: ano
       else if nr.length = 4 ∧ startsWith9 nr then
         '9' :: '0' :: nr.drop 1 ++ '/' :: ano
       else if nr.length ≤ 3 then
         '9' :: '0' :: pyZfill 3 nr ++ '/' :: ano
       else nr ++ '/' :: ano) := by
  have hne : nr ++ '/' :: ano ≠ [] := by simp
  rw [corrigir_eval_split (nr ++ '/' :: ano) nr ano hne
    (pySplitChar_pair '/' nr ano h1 h2), h3, h4]

theorem corrigir_eval_other (s : PyStr)
    (hsplit : (pySplitChar '/' s).length ≠ 2) :
    corrigirNumeroPregao s = s := by
  by_cases hne : s = []
  · rw [hne]; rfl
  · rcases h : pySplitChar '/' s with _ | ⟨p, ps⟩
    · exact absurd h (pySplitChar_ne_nil '/' s)
    · rcases ps with _ | ⟨q, qs⟩
      · simp only [corrigirNumeroPregao, if_neg hne, h]
      · rcases qs with _ | ⟨r, rs⟩
        · exact absurd (by rw [h]; rfl) hsplit
        · simp only [corrigirNumeroPregao, if_neg hne, h]

theorem strip_corr4 {nr : PyStr} (h : NoWsEnds nr) (hlen : nr.length = 4) :
    pyStrip ('9' :: '0' :: nr.drop 1) = '9' :: '0' :: nr.drop 1 := by
  apply pyStrip_eq_self
  constructor
  · intro c hc
    simp at hc
    rw [← hc]
    decide
  · intro c hc
    rcases nr with _ | ⟨a, t⟩
    · simp at hlen
    · have ht : t ≠ [] := by
        intro he; rw [he] at hlen; simp at hlen
      simp only [List.drop_succ_cons, List.drop_zero] at hc
      rw [getLast?_cons_ne_nil _ (by simp [ht]), getLast?_cons_ne_nil _ ht] at hc
      exact h.2 c (by rw [getLast?_cons_ne_nil _ ht]; exact hc)

theorem strip_corr3 {nr : PyStr} (h : NoWsEnds nr) :
    pyStrip ('9' :: '0' :: pyZfill 3 nr) = '9' :: '0' :: pyZfill 3 nr := by
  apply pyStrip_eq_self
  constructor
  · intro c hc
    simp at hc
    rw [← hc]
    decide
  · intro c hc
    have hz : pyZfill 3 nr ≠ [] := by
      intro he
      have := pyZfill_length 3 nr
      rw [he] at this
      simp at this
      omega
    rw [getLast?_cons_ne_nil _ (by simp [hz]), getLast?_cons_ne_nil _ hz] at hc
    rcases getLast?_pyZfill 3 nr with hg | hg
    · exact h.2 c (by rw [← hg]; exact hc)
    · rw [hg] at hc
      rw [← Option.some_inj.mp hc]
      decide

theorem slash_not_mem_corr4 {nr : PyStr} (h : '/' ∉ nr) :
    '/' ∉ ('9' :: '0' :: nr.drop 1) := by
  intro hm
  rcases List.mem_cons.mp hm with h1 | h1
  · exact absurd h1.symm (by decide)
  · rcases List.mem_cons.mp h1 with h2 | h2
    · exact absurd h2.symm (by decide)
    · exact h ((List.drop_sublist _ _).mem h2)

theorem slash_not_mem_corr3 {nr : PyStr} (h : '/' ∉ nr) :
    '/' ∉ ('9' :: '0' :: pyZfill 3 nr) := by
  intro hm
  rcases List.mem_cons.mp hm with h1 | h1
  · exact absurd h1.symm (by decide)
  · rcases List.mem_cons.mp h1 with h2 | h2
    · exact absurd h2.symm (by decide)
    · rcases mem_pyZfill h2 with h3 | h3
      · exact h h3
      · exact absurd h3 (by decide)

/-- C9 (supporting fact): `_corrigir_numero_pregao` is idempotent. -/
theorem corrigirNumeroPregao_idem (s : PyStr) :
    corrigirNumeroPregao (corrigirNumeroPregao s) = corrigirNumeroPregao s := by
  by_cases hsl : (pySplitChar '/' s).length = 2
  · rcases h : pySplitChar '/' s with _ | ⟨p0, ps⟩
    · exact absurd h (pySplitChar_ne_nil '/' s)
    · rcases ps with _ | ⟨p1, qs⟩
      · rw [h] at hsl; simp at hsl
      · rcases qs with _ | ⟨r, rs⟩
        · -- the interesting case: the input splits into exactly two parts
          have hne : s ≠ [] := by
            intro he; rw [he] at h; simp [pySplitChar] at h
          have hp0 : p0 ∈ pySplitChar '/' s := by rw [h]; simp
          have hp1 : p1 ∈ pySplitChar '/' s := by rw [h]; simp
          have hnr : '/' ∉ pyStrip p0 :=
            fun hm => mem_pySplitChar_not_sep '/' s p0 hp0 (mem_pyStrip hm)
          have hano : '/' ∉ pyStrip p1 :=
            fun hm => mem_pySplitChar_not_sep '/' s p1 hp1 (mem_pyStrip hm)
          have hnrW : NoWsEnds (pyStrip p0) := noWsEnds_pyStrip p0
          have hnr_id : pyStrip (pyStrip p0) = pyStrip p0 := pyStrip_idem p0
          have hano_id : pyStrip (pyStrip p1) = pyStrip p1 := pyStrip_idem p1
          rw [corrigir_eval_split s p0 p1 hne h]
          by_cases h5 : (pyStrip p0).length = 5
          · rw [if_pos h5,
              corrigir_eval_pair _ _ hnr hano hnr_id hano_id, if_pos h5]
          · rw [if_neg h5]
            by_cases h49 : (pyStrip p0).length = 4 ∧ startsWith9 (pyStrip p0)
            · rw [if_pos h49,
                corrigir_eval_pair _ _ (slash_not_mem_corr4 hnr) hano
                  (strip_corr4 hnrW h49.1) hano_id,
                if_pos (by simp [h49.1])]
            · rw [if_neg h49]
              by_cases h3 : (pyStrip p0).length ≤ 3
              · rw [if_pos h3,
                  corrigir_eval_pair _ _ (slash_not_mem_corr3 hnr) hano
                    (strip_corr3 hnrW) hano_id,
                  if_pos (by simp [pyZfill_length]; omega)]
              · rw [if_neg h3, corrigir_eval_split s p0 p1 hne h,
                  if_neg h5, if_neg h49, if_neg h3]
        · rw [h] at hsl; simp at hsl
  · rw [corrigir_eval_other s hsl, corrigir_eval_other s hsl]

/-- C9: auction-number normalization (`_corrigir_numero_pregao`) is
idempotent — applying it twice equals applying it once for every input;
a number whose digit part already has 5 digits is returned unchanged;
`"9014/2024"` maps to `"90014/2024"` and `"004/2025"` to `"90004/2025"`. -/
theorem c9_normalizacao_pregao_idempotente :
    (∀ s : PyStr,
      corrigirNumeroPregao (corrigirNumeroPregao s) = corrigirNumeroPregao s)
    ∧ (∀ nr ano : PyStr, '/' ∉ nr → '/' ∉ ano →
        pyStrip nr = nr → pyStrip ano = ano → nr.length = 5 →
        corrigirNumeroPregao (nr ++ '/' :: ano) = nr ++ '/' :: ano)
    ∧ corrigirNumeroPregao ("9014/2024".toList) = "90014/2024".toList
    ∧ corrigirNumeroPregao ("004/2025".toList) = "90004/2025".toList := by
  refine ⟨corrigirNumeroPregao_idem, ?_, by decide, by decide⟩
  intro nr ano h1 h2 h3 h4 h5
  rw [corrigir_eval_pair nr ano h1 h2 h3 h4, if_pos h5]

/-- Witness for C9: the 5-digit clause applied at `"90014/2024"`. -/
theorem c9_normalizacao_pregao_idempotente_witness :
    corrigirNumeroPregao ("90014".toList ++ '/' :: "2024".toList) =
      "90014".toList ++ '/' :: "2024".toList :=
  c9_normalizacao_pregao_idempotente.2.1 "90014".toList "2024".toList
    (by decide) (by decide) (by decide) (by decide) (by decide)

/-- C10: outside the documented correction shapes `_corrigir_numero_pregao`
is the identity: inputs that do not split at `/` into exactly two parts are
returned unchanged; a clean `N/Y` whose digit part has exactly 4 digits not
beginning with `9`, or 6 or more digits, is returned unchanged; and only
numbers with at most 3 digits or with 4 digits beginning with `9` are ever
rewritten. -/
theorem c10_correcao_pregao_identidade :
    (∀ s : PyStr, (pySplitChar '/' s).length ≠ 2 → corrigirNumeroPregao s = s)
    ∧ (∀ nr ano : PyStr, '/' ∉ nr → '/' ∉ ano →
        pyStrip nr = nr → pyStrip ano = ano →
        (∀ c ∈ nr, c.isDigit = true) →
        ((nr.length = 4 ∧ startsWith9 nr = false) ∨ 6 ≤ nr.length) →
        corrigirNumeroPregao (nr ++ '/' :: ano) = nr ++ '/' :: ano)
    ∧ (∀ nr ano : PyStr, '/' ∉ nr → '/' ∉ ano →
        pyStrip nr = nr → pyStrip ano = ano →
        (∀ c ∈ nr, c.isDigit = true) →
        corrigirNumeroPregao (nr ++ '/' :: ano) ≠ nr ++ '/' :: ano →
        nr.length ≤ 3 ∨ (nr.length = 4 ∧ startsWith9 nr = true)) := by
  refine ⟨corrigir_eval_other, ?_, ?_⟩
  · intro nr ano h1 h2 h3 h4 _ hcase
    rw [corrigir_eval_pair nr ano h1 h2 h3 h4]
    rcases hcase with ⟨hl, h9⟩ | hl
    · rw [if_neg (by omega), if_neg (by simp [h9]), if_neg (by omega)]
    · rw [if_neg (by omega), if_neg (by rintro ⟨hc4, _⟩; omega),
        if_neg (by omega)]
  · intro nr ano h1 h2 h3 h4 _ hne
    by_contra hcon
    push_neg at hcon
    obtain ⟨hg3, h49⟩ := hcon
    apply hne
    rw [corrigir_eval_pair nr ano h1 h2 h3 h4]
    by_cases h5 : nr.length = 5
    · rw [if_pos h5]
    · rw [if_neg h5,
        if_neg (by rintro ⟨hl4, hs9⟩; exact absurd hs9 (by simp [h49 hl4])),
        if_neg (by omega)]

/-- Witness for C10: identity at `"1234/2024"` (4 digits, not starting
with 9) and at `"abc"` (no two-part split). -/
theorem c10_correcao_pregao_identidade_witness :
    corrigirNumeroPregao ("1234".toList ++ '/' :: "2024".toList) =
      "1234".toList ++ '/' :: "2024".toList
    ∧ corrigirNumeroPregao ("abc".toList) = "abc".toList :=
  ⟨c10_correcao_pregao_identidade.2.1 "1234".toList "2024".toList
      (by decide) (by decide) (by decide) (by decide) (by decide)
      (Or.inl ⟨by decide, by decide⟩),
    c10_correcao_pregao_identidade.1 "abc".toList (by decide)⟩

-- ══════════════════════════════════════════════════════════════════════
-- Credit-note ledger postings (DEMONSTRA-DIARIO format)
-- ══════════════════════════════════════════════════════════════════════

/-- One parsed ledger posting of the DEMONSTRA-DIARIO screen, as built by
`_processar_linhas_evento_dd` (extractor.py:2430): the six budget codes of
the data line plus the monetary value of the event line (`_parse_valor_br`
may fail, hence `Option`). -/
structure LinhaEvento where
  esf : PyStr
  ptres : PyStr
  fonte : PyStr
  nd : PyStr
  ugr : PyStr
  pi : PyStr
  valor : Option ℚ
  deriving DecidableEq, Repr

/-- The deduplication key of `_processar_linhas_evento_dd`
(extractor.py:2482): `(nd, ptres, fonte, ugr, pi, esf, valor)`. -/
def chaveLinha (l : LinhaEvento) : PyStr × PyStr × PyStr × PyStr × PyStr × PyStr × Option ℚ :=
  (l.nd, l.ptres, l.fonte, l.ugr, l.pi, l.esf, l.valor)

/-- Deduplication stage of `_processar_linhas_evento_dd`
(extractor.py:2478-2490): keep the first posting for each key, preserving
order. -/
def dedupLinhasEvento (linhas : List LinhaEvento) : List LinhaEvento :=
  go [] linhas
where
  go (vistos : List (PyStr × PyStr × PyStr × PyStr × PyStr × PyStr × Option ℚ)) :
      List LinhaEvento → List LinhaEvento
    | [] => []
    | l :: rest =>
      if chaveLinha l ∈ vistos then go vistos rest
      else l :: go (chaveLinha l :: vistos) rest

/-- Per-ND balance map of `_extrair_nc_demonstra_diario`
(extractor.py:2390-2394): insertion-ordered association list; a posting
contributes only when its ND is non-empty and not yet present, with value
`linha.get("valor") or 0.0`. -/
def saldosPorNd (linhas : List LinhaEvento) : List (PyStr × ℚ) :=
  go [] linhas
where
  go (acc : List (PyStr × ℚ)) : List LinhaEvento → List (PyStr × ℚ)
    | [] => acc
    | l :: rest =>
      if l.nd ≠ [] ∧ ∀ par ∈ acc, par.1 ≠ l.nd then
        go (acc ++ [(l.nd, l.valor.getD 0)]) rest
      else go acc rest

/-- `valor_total` of `_extrair_nc_demonstra_diario` (extractor.py:2419):
the sum of the per-ND balances of the (already deduplicated) postings. -/
def valorTotalDD (linhas : List LinhaEvento) : ℚ :=
  ((saldosPorNd linhas).map Prod.snd).sum

/-- C3: two postings with identical
(ND, PTRES, fonte, UGR, PI, ESF, value) tuples collapse to one; two
postings differing only in ND are both kept, produce one independent
balance per ND (the first posting's value for that ND), and the balances
sum to the credit note's `valor_total`. -/
theorem c3_dedup_e_saldos_por_nd :
    (∀ l1 l2 : LinhaEvento, chaveLinha l1 = chaveLinha l2 →
      dedupLinhasEvento [l1, l2] = [l1])
    ∧ (∀ l1 l2 : LinhaEvento,
        l1.esf = l2.esf → l1.ptres = l2.ptres → l1.fonte = l2.fonte →
        l1.ugr = l2.ugr → l1.pi = l2.pi → l1.valor = l2.valor →
        l1.nd ≠ l2.nd → l1.nd ≠ [] → l2.nd ≠ [] →
        dedupLinhasEvento [l1, l2] = [l1, l2]
        ∧ saldosPorNd (dedupLinhasEvento [l1, l2]) =
            [(l1.nd, l1.valor.getD 0), (l2.nd, l2.valor.getD 0)]
        ∧ valorTotalDD (dedupLinhasEvento [l1, l2]) =
            l1.valor.getD 0 + l2.valor.getD 0) := by
  constructor
  · intro l1 l2 hk
    simp [dedupLinhasEvento, dedupLinhasEvento.go, hk]
  · intro l1 l2 h1 h2 h3 h4 h5 h6 hnd hn1 hn2
    have hk : chaveLinha l2 ≠ chaveLinha l1 := by
      intro hq
      exact hnd (congrArg Prod.fst hq).symm
    have hdedup : dedupLinhasEvento [l1, l2] = [l1, l2] := by
      simp [dedupLinhasEvento, dedupLinhasEvento.go, hk]
    refine ⟨hdedup, ?_, ?_⟩
    · rw [hdedup]
      simp [saldosPorNd, saldosPorNd.go, hn1, hn2, hnd]
    · rw [hdedup]
      simp [valorTotalDD, saldosPorNd, saldosPorNd.go, hn1, hn2, hnd]

/-- Witness for C3: concrete postings — a duplicated posting collapses,
and the same posting with ND `339039` vs `339030` yields two balances
summing to 4000. -/
theorem c3_dedup_e_saldos_por_nd_witness :
    dedupLinhasEvento
      [⟨"1".toList, "232180".toList, "1021000000".toList, "339039".toList,
          "167504".toList, "E3PCFSCDEGE".toList, some 2000⟩,
        ⟨"1".toList, "232180".toList, "1021000000".toList, "339039".toList,
          "167504".toList, "E3PCFSCDEGE".toList, some 2000⟩] =
      [⟨"1".toList, "232180".toList, "1021000000".toList, "339039".toList,
          "167504".toList, "E3PCFSCDEGE".toList, some 2000⟩]
    ∧ valorTotalDD (dedupLinhasEvento
        [⟨"1".toList, "232180".toList, "1021000000".toList, "339039".toList,
            "167504".toList, "E3PCFSCDEGE".toList, some 2000⟩,
          ⟨"1".toList, "232180".toList, "1021000000".toList, "339030".toList,
            "167504".toList, "E3PCFSCDEGE".toList, some 2000⟩]) = 4000 := by
  constructor
  · exact c3_dedup_e_saldos_por_nd.1 _ _ rfl
  · have h := (c3_dedup_e_saldos_por_nd.2
      ⟨"1".toList, "232180".toList, "1021000000".toList, "339039".toList,
        "167504".toList, "E3PCFSCDEGE".toList, some 2000⟩
      ⟨"1".toList, "232180".toList, "1021000000".toList, "339030".toList,
        "167504".toList, "E3PCFSCDEGE".toList, some 2000⟩
      rfl rfl rfl rfl rfl rfl (by decide) (by decide) (by decide)).2.2
    rw [h]
    norm_num

-- ══════════════════════════════════════════════════════════════════════
-- Contract extraction quality gate
-- ══════════════════════════════════════════════════════════════════════

/-- The field record assembled by `_extrair_contrato` (extractor.py:2676):
eleven optional string fields, the signature flag, and the signatory list,
in the dict's insertion order. -/
structure ContratoDados where
  nr_contrato_doc : Option PyStr
  uasg_contratante : Option PyStr
  nome_contratante : Option PyStr
  cnpj_contratante : Option PyStr
  contratada : Option PyStr
  cnpj_contratada : Option PyStr
  objeto : Option PyStr
  valor_total : Option PyStr
  vigencia_inicio : Option PyStr
  vigencia_fim : Option PyStr
  pregao_origem : Option PyStr
  tem_assinaturas : Bool
  assinantes : List PyStr
  deriving DecidableEq, Repr

/-- Python truthiness of an optional string: `None` and `""` are falsy. -/
def pyTruthyStr : Option PyStr → Bool
  | none => false
  | some s => s ≠ []

/-- `preenchidos` of `_extrair_contrato` (extractor.py:2855): number of
truthy values among the dict's entries, excluding `assinantes` (a truthy
value is never `False` or `[]`, so the extra exclusions change nothing). -/
def contarPreenchidos (d : ContratoDados) : Nat :=
  List.count true
    [pyTruthyStr d.nr_contrato_doc, pyTruthyStr d.uasg_contratante,
      pyTruthyStr d.nome_contratante, pyTruthyStr d.cnpj_contratante,
      pyTruthyStr d.contratada, pyTruthyStr d.cnpj_contratada,
      pyTruthyStr d.objeto, pyTruthyStr d.valor_total,
      pyTruthyStr d.vigencia_inicio, pyTruthyStr d.vigencia_fim,
      pyTruthyStr d.pregao_origem, d.tem_assinaturas]

/-- `campos_chave_preenchidos` of `_extrair_contrato` (extractor.py:2857):
how many of the four key fields are truthy. -/
def contarCamposChave (d : ContratoDados) : Nat :=
  List.count true
    [pyTruthyStr d.nr_contrato_doc, pyTruthyStr d.cnpj_contratada,
      pyTruthyStr d.objeto, pyTruthyStr d.vigencia_inicio]

/-- Quality gate of `_extrair_contrato` (extractor.py:2860-2866): discard
the whole record (return `none`) when fewer than 3 fields are populated or
no key field is populated; otherwise return the record unchanged. -/
def filtroQualidadeContrato (d : ContratoDados) : Option ContratoDados :=
  if contarPreenchidos d < 3 ∨ contarCamposChave d < 1 then none
  else some d

/-- C7: the contract parser's quality gate returns `none` exactly when
fewer than 3 fields are populated overall or none of the four key fields
(contract number, contracted-party CNPJ, object, validity start) is
populated; otherwise it returns the extracted record itself. -/
theorem c7_filtro_qualidade_contrato (d : ContratoDados) :
    (filtroQualidadeContrato d = none ↔
      (contarPreenchidos d < 3 ∨ contarCamposChave d = 0))
    ∧ (¬(contarPreenchidos d < 3 ∨ contarCamposChave d = 0) →
        filtroQualidadeContrato d = some d) := by
  have hiff : contarCamposChave d < 1 ↔ contarCamposChave d = 0 := by omega
  constructor
  · constructor
    · intro h
      by_contra hc
      push_neg at hc
      rw [filtroQualidadeContrato, if_neg (by omega)] at h
      exact Option.some_ne_none d h
    · intro h
      rw [filtroQualidadeContrato, if_pos (by omega)]
  · intro h
    push_neg at h
    rw [filtroQualidadeContrato, if_neg (by omega)]

/-- Witness for C7: a record with only 2 populated fields and no key field
is discarded; one with 3 populated fields including a key field passes. -/
theorem c7_filtro_qualidade_contrato_witness :
    filtroQualidadeContrato
      ⟨none, some "160142".toList, some "CMO".toList, none, none, none,
        none, none, none, none, none, false, []⟩ = none
    ∧ filtroQualidadeContrato
      ⟨some "059/2024".toList, some "160142".toList, some "CMO".toList,
        none, none, none, none, none, none, none, none, false, []⟩ =
      some ⟨some "059/2024".toList, some "160142".toList, some "CMO".toList,
        none, none, none, none, none, none, none, none, false, []⟩ :=
  ⟨(c7_filtro_qualidade_contrato _).1.mpr (by decide),
    (c7_filtro_qualidade_contrato _).2 (by decide)⟩

-- ══════════════════════════════════════════════════════════════════════
-- Case mapping, pages, and page classification
-- ══════════════════════════════════════════════════════════════════════

/-- Python `str.lower()` on one character, restricted to the ASCII +
Latin-1 repertoire appearing in these documents. -/
def pyLowerChar (c : Char) : Char :=
  if 'A' ≤ c ∧ c ≤ 'Z' then Char.ofNat (c.toNat + 32)
  else
    match c with
    | 'Á' => 'á' | 'À' => 'à' | 'Â' => 'â' | 'Ã' => 'ã'
    | 'É' => 'é' | 'È' => 'è' | 'Ê' => 'ê'
    | 'Í' => 'í' | 'Ï' => 'ï'
    | 'Ó' => 'ó' | 'Ô' => 'ô' | 'Õ' => 'õ' | 'Ö' => 'ö'
    | 'Ú' => 'ú' | 'Ü' => 'ü'
    | 'Ç' => 'ç'
    | _ => c

/-- Python `str.upper()` on one character, same repertoire. -/
def pyUpperChar (c : Char) : Char :=
  if 'a' ≤ c ∧ c ≤ 'z' then Char.ofNat (c.toNat - 32)
  else
    match c with
    | 'á' => 'Á' | 'à' => 'À' | 'â' => 'Â' | 'ã' => 'Ã'
    | 'é' => 'É' | 'è' => 'È' | 'ê' => 'Ê'
    | 'í' => 'Í' | 'ï' => 'Ï'
    | 'ó' => 'Ó' | 'ô' => 'Ô' | 'õ' => 'Õ' | 'ö' => 'Ö'
    | 'ú' => 'Ú' | 'ü' => 'Ü'
    | 'ç' => 'Ç'
    | _ => c

/-- Python `str.lower()`. -/
def pyLower (l : PyStr) : PyStr := l.map pyLowerChar

/-- Python `str.upper()`. -/
def pyUpper (l : PyStr) : PyStr := l.map pyUpperChar

/-- `sub` is a prefix of `l`. -/
def ehPrefixo : PyStr → PyStr → Bool
  | [], _ => true
  | _ :: _, [] => false
  | a :: as, b :: bs => a = b && ehPrefixo as bs

/-- Python `sub in hay` substring test (second argument is the haystack). -/
def contemEm (sub : PyStr) : PyStr → Bool
  | [] => ehPrefixo sub []
  | c :: t => ehPrefixo sub (c :: t) || contemEm sub t

/-- Python `sub in hay`. -/
def contem (hay sub : PyStr) : Bool := contemEm sub hay

/-- `re.search`: does the position matcher `m` succeed at some suffix? -/
def buscaEm (m : PyStr → Bool) : PyStr → Bool
  | [] => m []
  | c :: t => m (c :: t) || buscaEm m t

/-- Consume the literal `lit`, returning the remainder. -/
def consumirLit : PyStr → PyStr → Option PyStr
  | [], l => some l
  | _ :: _, [] => none
  | a :: as, b :: bs => if a = b then consumirLit as bs else none

/-- One record per PDF page, as built by `_extrair_paginas`
(extractor.py:387-393). -/
structure Pagina where
  numero : Nat
  texto : PyStr
  tem_texto : Bool
  requer_ocr : Bool
  fonte : PyStr
  deriving DecidableEq, Repr

/-- The category buckets returned by `_classificar_paginas`
(extractor.py:430-443), in the dict's insertion order. -/
structure Classificadas where
  capa : List Pagina
  termo_abertura : List Pagina
  checklist : List Pagina
  requisicao : List Pagina
  nota_credito : List Pagina
  sicaf : List Pagina
  cadin : List Pagina
  consulta_consolidada : List Pagina
  despacho : List Pagina
  contrato : List Pagina
  edital : List Pagina
  nao_classificada : List Pagina
  deriving DecidableEq, Repr

/-- The initially empty bucket dict of `_classificar_paginas`. -/
def classificadasVazias : Classificadas :=
  ⟨[], [], [], [], [], [], [], [], [], [], [], []⟩

-- ══════════════════════════════════════════════════════════════════════
-- Process-type inference
-- ══════════════════════════════════════════════════════════════════════

/-- The identification fields consulted by `_inferir_tipo_processo`
(extractor.py:3564): contract number, auction number and empenho type. -/
structure IdentificacaoTipo where
  nr_contrato : Option PyStr
  nr_pregao : Option PyStr
  tipo_empenho : Option PyStr
  deriving DecidableEq, Repr

/-- `_inferir_tipo_processo` (extractor.py:3564-3593): explicit contract
number, checklist pages or contract pages give "Contrato"; otherwise an
auction number gives "Licitação"; otherwise the lowered empenho-type word
decides; otherwise `None`. -/
def inferirTipoProcesso (ident : IdentificacaoTipo) (cls : Classificadas) :
    Option PyStr :=
  if pyTruthyStr ident.nr_contrato then some "Contrato".toList
  else if cls.checklist ≠ [] then some "Contrato".toList
  else if cls.contrato ≠ [] then some "Contrato".toList
  else if pyTruthyStr ident.nr_pregao then some "Licitação".toList
  else
    let tipo_emp := pyLower (ident.tipo_empenho.getD [])
    if tipo_emp = "global".toList ∨ tipo_emp = "estimativo".toList then
      some "Contrato".toList
    else if tipo_emp = "ordinário".toList then some "Licitação".toList
    else none

/-- C6: process-type inference precedence — contract number or checklist
or contract pages give "Contrato"; else an auction number gives
"Licitação" regardless of empenho type; else empenho type
global/estimativo gives "Contrato" and ordinário gives "Licitação"; with
no signal the result is null.  In particular, a process whose only signal
is empenho type "Global" infers "Contrato", and with "Ordinário" it
infers "Licitação". -/
theorem c6_inferir_tipo_processo (ident : IdentificacaoTipo) (cls : Classificadas) :
    ((pyTruthyStr ident.nr_contrato = true ∨ cls.checklist ≠ [] ∨ cls.contrato ≠ []) →
      inferirTipoProcesso ident cls = some "Contrato".toList)
    ∧ (pyTruthyStr ident.nr_contrato = false → cls.checklist = [] →
        cls.contrato = [] → pyTruthyStr ident.nr_pregao = true →
        inferirTipoProcesso ident cls = some "Licitação".toList)
    ∧ (pyTruthyStr ident.nr_contrato = false → cls.checklist = [] →
        cls.contrato = [] → pyTruthyStr ident.nr_pregao = false →
        (pyLower (ident.tipo_empenho.getD []) = "global".toList ∨
          pyLower (ident.tipo_empenho.getD []) = "estimativo".toList) →
        inferirTipoProcesso ident cls = some "Contrato".toList)
    ∧ (pyTruthyStr ident.nr_contrato = false → cls.checklist = [] →
        cls.contrato = [] → pyTruthyStr ident.nr_pregao = false →
        pyLower (ident.tipo_empenho.getD []) = "ordinário".toList →
        inferirTipoProcesso ident cls = some "Licitação".toList)
    ∧ (pyTruthyStr ident.nr_contrato = false → cls.checklist = [] →
        cls.contrato = [] → pyTruthyStr ident.nr_pregao = false →
        pyLower (ident.tipo_empenho.getD []) ≠ "global".toList →
        pyLower (ident.tipo_empenho.getD []) ≠ "estimativo".toList →
        pyLower (ident.tipo_empenho.getD []) ≠ "ordinário".toList →
        inferirTipoProcesso ident cls = none)
    ∧ inferirTipoProcesso ⟨none, none, some "Global".toList⟩
        classificadasVazias = some "Contrato".toList
    ∧ inferirTipoProcesso ⟨none, none, some "Ordinário".toList⟩
        classificadasVazias = some "Licitação".toList := by
  refine ⟨?_, ?_, ?_, ?_, ?_, by decide, by decide⟩
  · rintro (h | h | h)
    · rw [inferirTipoProcesso, if_pos h]
    · by_cases hc : pyTruthyStr ident.nr_contrato
      · rw [inferirTipoProcesso, if_pos hc]
      · rw [inferirTipoProcesso, if_neg hc, if_pos h]
    · by_cases hc : pyTruthyStr ident.nr_contrato
      · rw [inferirTipoProcesso, if_pos hc]
      · by_cases hck : cls.checklist ≠ []
        · rw [inferirTipoProcesso, if_neg hc, if_pos hck]
        · rw [inferirTipoProcesso, if_neg hc, if_neg hck, if_pos h]
  · intro h1 h2 h3 h4
    rw [inferirTipoProcesso, if_neg (by simp [h1]), if_neg (by simp [h2]),
      if_neg (by simp [h3]), if_pos h4]
  · intro h1 h2 h3 h4 h5
    rw [inferirTipoProcesso, if_neg (by simp [h1]), if_neg (by simp [h2]),
      if_neg (by simp [h3]), if_neg (by simp [h4])]
    simp only [if_pos h5]
  · intro h1 h2 h3 h4 h5
    rw [inferirTipoProcesso, if_neg (by simp [h1]), if_neg (by simp [h2]),
      if_neg (by simp [h3]), if_neg (by simp [h4])]
    have hor : ¬(pyLower (ident.tipo_empenho.getD []) = "global".toList ∨
        pyLower (ident.tipo_empenho.getD []) = "estimativo".toList) := by
      rw [h5]; decide
    simp only [if_neg hor, if_pos h5]
  · intro h1 h2 h3 h4 h5 h6 h7
    rw [inferirTipoProcesso, if_neg (by simp [h1]), if_neg (by simp [h2]),
      if_neg (by simp [h3]), if_neg (by simp [h4])]
    simp only [if_neg (not_or.mpr ⟨h5, h6⟩), if_neg h7]

/-- Witness for C6: the precedence clauses applied at concrete inputs —
a contract number alone gives "Contrato"; an auction number with empenho
type "Global" still gives "Licitação". -/
theorem c6_inferir_tipo_processo_witness :
    inferirTipoProcesso ⟨some "059/2024".toList, none, none⟩
      classificadasVazias = some "Contrato".toList
    ∧ inferirTipoProcesso ⟨none, some "90004/2025".toList, some "Global".toList⟩
      classificadasVazias = some "Licitação".toList :=
  ⟨(c6_inferir_tipo_processo _ _).1 (Or.inl (by decide)),
    (c6_inferir_tipo_processo _ _).2.1 (by decide) rfl rfl (by decide)⟩

-- ══════════════════════════════════════════════════════════════════════
-- Flexible date parser
-- ══════════════════════════════════════════════════════════════════════

/-- `MESES_PT` (extractor.py:58): Portuguese month abbreviations. -/
def MESES_PT : List (PyStr × Nat) :=
  [("JAN".toList, 1), ("FEV".toList, 2), ("MAR".toList, 3), ("ABR".toList, 4),
    ("MAI".toList, 5), ("JUN".toList, 6), ("JUL".toList, 7), ("AGO".toList, 8),
    ("SET".toList, 9), ("OUT".toList, 10), ("NOV".toList, 11), ("DEZ".toList, 12)]

/-- `MESES_EXTENSO` (extractor.py:65): full Portuguese month names. -/
def MESES_EXTENSO : List (PyStr × Nat) :=
  [("janeiro".toList, 1), ("fevereiro".toList, 2), ("março".toList, 3),
    ("abril".toList, 4), ("maio".toList, 5), ("junho".toList, 6),
    ("julho".toList, 7), ("agosto".toList, 8), ("setembro".toList, 9),
    ("outubro".toList, 10), ("novembro".toList, 11), ("dezembro".toList, 12)]

/-- A calendar date as produced by Python's `datetime` constructor. -/
structure Data where
  ano : Nat
  mes : Nat
  dia : Nat
  deriving DecidableEq, Repr

/-- Gregorian leap year, as used by `datetime`. -/
def ehBissexto (y : Nat) : Bool :=
  y % 4 = 0 && (y % 100 ≠ 0 || y % 400 = 0)

/-- Days in a month, as used by `datetime`. -/
def diasNoMes (y m : Nat) : Nat :=
  if m = 2 then (if ehBissexto y then 29 else 28)
  else if m = 4 ∨ m = 6 ∨ m = 9 ∨ m = 11 then 30
  else 31

/-- Python `datetime(y, m, d)`: `some` on a valid date, `none` when the
constructor would raise `ValueError` (which `parse_data_flexivel`
swallows, falling through to the next format). -/
def mkDatetime (y m d : Nat) : Option Data :=
  if 1 ≤ y ∧ y ≤ 9999 ∧ 1 ≤ m ∧ m ≤ 12 ∧ 1 ≤ d ∧ d ≤ diasNoMes y m then
    some ⟨y, m, d⟩
  else none

/-- ASCII letter (`[A-Za-z]`). -/
def ehLetraAscii (c : Char) : Bool :=
  ('A' ≤ c && c ≤ 'Z') || ('a' ≤ c && c ≤ 'z')

/-- Word character for regex `\w` over this repertoire: ASCII
alphanumerics, underscore and the accented Latin letters the month names
and documents use. -/
def ehCaracterePalavra (c : Char) : Bool :=
  ehLetraAscii c || c.isDigit || c = '_' ||
    "áàâãéèêíïóôõöúüçÁÀÂÃÉÈÊÍÏÓÔÕÖÚÜÇ".toList.contains c

/-- Consume exactly `n` digits, returning their value and the rest. -/
def pegarDigitos : Nat → PyStr → Option (Nat × PyStr)
  | 0, l => some (0, l)
  | _ + 1, [] => none
  | n + 1, c :: rest =>
    if c.isDigit then
      match pegarDigitos n rest with
      | some (v, r) => some ((c.toNat - 48) * 10 ^ n + v, r)
      | none => none
    else none

/-- Consume one or two digits, greedily (regex `(\d{1,2})` followed by a
non-digit context, where greedy matching is deterministic). -/
def pegarDigitos1ou2 : PyStr → Option (Nat × PyStr)
  | [] => none
  | c :: rest =>
    if c.isDigit then
      match rest with
      | c2 :: rest2 =>
        if c2.isDigit then some ((c.toNat - 48) * 10 + (c2.toNat - 48), rest2)
        else some (c.toNat - 48, rest)
      | [] => some (c.toNat - 48, [])
    else none

/-- Consume exactly `n` ASCII letters (regex `[A-Za-z]{n}`). -/
def pegarLetras : Nat → PyStr → Option (PyStr × PyStr)
  | 0, l => some ([], l)
  | _ + 1, [] => none
  | n + 1, c :: rest =>
    if ehLetraAscii c then
      match pegarLetras n rest with
      | some (w, r) => some (c :: w, r)
      | none => none
    else none

/-- Consume a maximal nonempty run of word characters (regex `(\w+)`
followed by whitespace context). -/
def pegarPalavra (l : PyStr) : Option (PyStr × PyStr) :=
  match l with
  | [] => none
  | c :: _ =>
    if ehCaracterePalavra c then
      some (l.takeWhile ehCaracterePalavra, l.dropWhile ehCaracterePalavra)
    else none

/-- Consume at least one whitespace character (regex `\s+`). -/
def consumirWs1 : PyStr → Option PyStr
  | [] => none
  | c :: rest => if isPySpace c then some (rest.dropWhile isPySpace) else none

/-- Consume one expected character. -/
def consumirChar (x : Char) : PyStr → Option PyStr
  | [] => none
  | c :: rest => if c = x then some rest else none

/-- Consume a literal case-insensitively (for `re.IGNORECASE`). -/
def consumirLitCi : PyStr → PyStr → Option PyStr
  | [], l => some l
  | _ :: _, [] => none
  | a :: as, b :: bs =>
    if pyLowerChar b = pyLowerChar a then consumirLitCi as bs else none

/-- Format block `DD/MM/YYYY` (extractor.py:3640-3645). -/
def dataDDsMMsYYYY (t : PyStr) : Option Data := do
  let (d, r) ← pegarDigitos 2 t
  let r ← consumirChar '/' r
  let (m, r) ← pegarDigitos 2 r
  let r ← consumirChar '/' r
  let (y, _) ← pegarDigitos 4 r
  mkDatetime y m d

/-- Format block `DD/MMM/YYYY` (extractor.py:3648-3655). -/
def dataDDsMMMsYYYY (t : PyStr) : Option Data := do
  let (d, r) ← pegarDigitos 2 t
  let r ← consumirChar '/' r
  let (w, r) ← pegarLetras 3 r
  let r ← consumirChar '/' r
  let (y, _) ← pegarDigitos 4 r
  let m ← MESES_PT.lookup (pyUpper w)
  mkDatetime y m d

/-- Format block `DD de mês de YYYY` (extractor.py:3658-3667). -/
def dataPorExtenso (t : PyStr) : Option Data := do
  let (d, r) ← pegarDigitos1ou2 t
  let r ← consumirWs1 r
  let r ← consumirLitCi "de".toList r
  let r ← consumirWs1 r
  let (w, r) ← pegarPalavra r
  let r ← consumirWs1 r
  let r ← consumirLitCi "de".toList r
  let r ← consumirWs1 r
  let (y, _) ← pegarDigitos 4 r
  let m ← MESES_EXTENSO.lookup (pyLower w)
  mkDatetime y m d

/-- Format block `DD MMM YY` (extractor.py:3670-3678). -/
def dataDDespMMMespYY (t : PyStr) : Option Data := do
  let (d, r) ← pegarDigitos1ou2 t
  let r ← consumirWs1 r
  let (w, r) ← pegarLetras 3 r
  let r ← consumirWs1 r
  let (y2, _) ← pegarDigitos 2 r
  let m ← MESES_PT.lookup (pyUpper w)
  mkDatetime (2000 + y2) m d

/-- Format block `DDMmmYY` / `DDMMMYY` (extractor.py:3681-3689). -/
def dataDDMMMYY (t : PyStr) : Option Data := do
  let (d, r) ← pegarDigitos 2 t
  let (w, r) ← pegarLetras 3 r
  let (y2, _) ← pegarDigitos 2 r
  let m ← MESES_PT.lookup (pyUpper w)
  mkDatetime (2000 + y2) m d

/-- Format block `DDMMMYYYY` (extractor.py:3692-3699). -/
def dataDDMMMYYYY (t : PyStr) : Option Data := do
  let (d, r) ← pegarDigitos 2 t
  let (w, r) ← pegarLetras 3 r
  let (y, _) ← pegarDigitos 4 r
  let m ← MESES_PT.lookup (pyUpper w)
  mkDatetime y m d

/-- Format block `DD/MM/YY` (extractor.py:3702-3708). -/
def dataDDsMMsYY (t : PyStr) : Option Data := do
  let (d, r) ← pegarDigitos 2 t
  let r ← consumirChar '/' r
  let (m, r) ← pegarDigitos 2 r
  let r ← consumirChar '/' r
  let (y2, _) ← pegarDigitos 2 r
  mkDatetime (2000 + y2) m d

/-- `parse_data_flexivel` (extractor.py:3621-3710): strip the input, then
try the seven format blocks in source order; each block returns a date
only when its regex matches at the start, the month resolves, and the
`datetime` constructor accepts the values — otherwise control falls
through to the next block, and finally to `None`. -/
def parseDataFlexivel (texto : PyStr) : Option Data :=
  if texto = [] then none
  else
    let t := pyStrip texto
    (dataDDsMMsYYYY t).orElse fun _ =>
    (dataDDsMMMsYYYY t).orElse fun _ =>
    (dataPorExtenso t).orElse fun _ =>
    (dataDDespMMMespYY t).orElse fun _ =>
    (dataDDMMMYY t).orElse fun _ =>
    (dataDDMMMYYYY t).orElse fun _ =>
    dataDDsMMsYY t

/-- C1 evaluation: the documented tokens parse to the dates claimed,
except `"30JUN2025"`, which the `DDMmmYY` block (tried before
`DDMMMYYYY`) consumes as day 30, month JUN, year `"20"`, giving
2020-06-30 instead of the docstring's 2025-06-30; an unsupported token
and the empty string give `None`. -/
theorem c1_parse_data_flexivel_aval :
    parseDataFlexivel "12/01/2026".toList = some ⟨2026, 1, 12⟩
    ∧ parseDataFlexivel "11/JAN/2026".toList = some ⟨2026, 1, 11⟩
    ∧ parseDataFlexivel "27 JAN 26".toList = some ⟨2026, 1, 27⟩
    ∧ parseDataFlexivel "27Jan26".toList = some ⟨2026, 1, 27⟩
    ∧ parseDataFlexivel "05 de fevereiro de 2026".toList = some ⟨2026, 2, 5⟩
    ∧ parseDataFlexivel "30JUN2025".toList = some ⟨2020, 6, 30⟩
    ∧ parseDataFlexivel "30JUN2025".toList ≠ some ⟨2025, 6, 30⟩
    ∧ parseDataFlexivel "18JUN2025".toList = some ⟨2020, 6, 18⟩
    ∧ parseDataFlexivel "BANANA".toList = none
    ∧ parseDataFlexivel [] = none := by
  decide

-- ══════════════════════════════════════════════════════════════════════
-- Page-classification predicates
-- ══════════════════════════════════════════════════════════════════════

/-- `_eh_capa` (extractor.py:526): cover-page indicators. -/
def ehCapa (t : PyStr) : Bool :=
  contem t "PROCESSO NUP".toList || contem t "PROTOCOLO GERAL".toList ||
    contem t "PEÇAS PROCESSUAIS".toList ||
    (contem t "CHECK LIST".toList && contem t "PEÇAS".toList)

/-- `_eh_termo_abertura` (extractor.py:537). -/
def ehTermoAbertura (t : PyStr) : Bool :=
  contem t "TERMO DE ABERTURA".toList ||
    contem t "AUTUO O PRESENTE PROCESSO".toList

/-- Position matcher for regex `DESPACHO\s*N[ºO°]`. -/
def posDespachoNum (l : PyStr) : Bool :=
  match consumirLit "DESPACHO".toList l with
  | none => false
  | some r =>
    match r.dropWhile isPySpace with
    | 'N' :: c :: _ => c = 'º' || c = 'O' || c = '°'
    | _ => false

/-- `re.search(r"DESPACHO\s*N[ºO°]", texto)` (extractor.py:462). -/
def buscaDespachoNum (t : PyStr) : Bool := buscaEm posDespachoNum t

/-- Position matcher for regex `REQ\s*(?:N[ºO°]\s*)?\d`: after `REQ` and
optional whitespace, either the optional `N[ºO°]\s*` group followed by a
digit, or a digit directly (the regex backtracks to dropping the group,
which can only succeed when the current character is itself a digit). -/
def posReqNum (l : PyStr) : Bool :=
  match consumirLit "REQ".toList l with
  | none => false
  | some r0 =>
    let r := r0.dropWhile isPySpace
    match r with
    | 'N' :: c :: rest =>
      if c = 'º' || c = 'O' || c = '°' then
        match rest.dropWhile isPySpace with
        | d :: _ => d.isDigit
        | [] => false
      else false
    | d :: _ => d.isDigit
    | [] => false

/-- `_eh_requisicao` (extractor.py:545): at least 2 of the 7 indicators. -/
def ehRequisicao (t : PyStr) : Bool :=
  2 ≤ List.count true
    [buscaEm posReqNum t,
      contem t "ORDENADOR DE DESPESAS".toList,
      contem t "TIPO DE EMPENHO".toList,
      contem t "AO SR".toList && contem t "ORDENADOR".toList,
      contem t "MATERIAL".toList && contem t "ADQUIRIDO".toList,
      (contem t "P. UNT".toList || contem t "P.UNT".toList) &&
        contem t "TOTAL".toList,
      contem t "FISC ADM".toList && contem t "REQUISI".toList]

/-- Position matcher for regex `20\d{2}NC\d{6}`. -/
def posNumeroNC (l : PyStr) : Bool :=
  match l with
  | '2' :: '0' :: a :: b :: 'N' :: 'C' :: rest =>
    a.isDigit && b.isDigit && (pegarDigitos 6 rest).isSome
  | _ => false

/-- `_eh_nota_credito` (extractor.py:560): any indicator suffices. -/
def ehNotaCredito (t : PyStr) : Bool :=
  contem t "NOTA DE CRÉDITO".toList || contem t "NOTA DE CREDITO".toList ||
    contem t "UG EMITENTE".toList ||
    contem t "SISTEMA ORIGEM SIAFI".toList ||
    contem t "DEMONSTRA-DIARIO".toList ||
    contem t "DEMONSTRA-CONRAZAO".toList ||
    buscaEm posNumeroNC t

/-- `_eh_sicaf` (extractor.py:597). -/
def ehSicaf (t : PyStr) : Bool :=
  (contem t "DADOS DO FORNECEDOR".toList &&
      contem t "SITUAÇÃO DO FORNECEDOR".toList) ||
    (contem t "CADASTRAMENTO UNIFICADO DE FORNECEDORES".toList &&
      contem t "DADOS DO FORNECEDOR".toList)

/-- `_eh_cadin` (extractor.py:612). -/
def ehCadin (t : PyStr) : Bool :=
  contem t "CADIN".toList &&
    (contem t "CRÉDITOS NÃO QUITADOS".toList ||
      contem t "CREDITOS NAO QUITADOS".toList ||
      contem t "CONSULTA CONTRATANTE".toList)

/-- `_eh_consulta_consolidada` (extractor.py:629). -/
def ehConsultaConsolidada (t : PyStr) : Bool :=
  contem t "CONSULTA CONSOLIDADA DE PESSOA".toList &&
    contem t "RESULTADO".toList

/-- Position matcher for the numbered-clause regex
`CL[ÁA]USULA\s+(?:PRIMEIRA|...|D[ÉE]CIMA)` (extractor.py:586). -/
def posClausula (l : PyStr) : Bool :=
  match consumirLit "CL".toList l with
  | none => false
  | some r =>
    match r with
    | c :: r2 =>
      if c = 'Á' || c = 'A' then
        match consumirLit "USULA".toList r2 with
        | none => false
        | some r3 =>
          match consumirWs1 r3 with
          | none => false
          | some r4 =>
            ehPrefixo "PRIMEIRA".toList r4 || ehPrefixo "SEGUNDA".toList r4 ||
              ehPrefixo "TERCEIRA".toList r4 || ehPrefixo "QUARTA".toList r4 ||
              ehPrefixo "QUINTA".toList r4 || ehPrefixo "SEXTA".toList r4 ||
              ehPrefixo "SÉTIMA".toList r4 || ehPrefixo "SETIMA".toList r4 ||
              ehPrefixo "OITAVA".toList r4 || ehPrefixo "NONA".toList r4 ||
              ehPrefixo "DÉCIMA".toList r4 || ehPrefixo "DECIMA".toList r4
      else false
    | [] => false

/-- `_eh_contrato` (extractor.py:573): strong indicators, then at least 2
clause indicators. -/
def ehContrato (t : PyStr) : Bool :=
  if contem t "TERMO DE CONTRATO".toList then true
  else if contem t "CONTRATANTE".toList && contem t "CONTRATADA".toList then
    true
  else
    2 ≤ List.count true
      [buscaEm posClausula t,
        contem t "CONTRATADA".toList || contem t "CONTRATANTE".toList,
        contem t "EXECU".toList && contem t "CONTRAT".toList,
        contem t "RESCIS".toList && contem t "CONTRAT".toList,
        contem t "VIG".toList && contem t "CONTRAT".toList,
        contem t "GARANTIA DE EXECU".toList]

-- ══════════════════════════════════════════════════════════════════════
-- The page-classification loop
-- ══════════════════════════════════════════════════════════════════════

/-- The checklist test of the loop body (extractor.py:474). -/
def ehCheckTxt (t : PyStr) : Bool :=
  contem t "CHECK LIST".toList && contem t "CONTRATO".toList

/-- `eh_req` of the loop body (extractor.py:480): requisition test runs
only when the page was not already classified (i.e. not checklist). -/
def ehReqTxt (t : PyStr) : Bool := !ehCheckTxt t && ehRequisicao t

/-- Credit-note test of the loop body (extractor.py:487): suppressed for
requisition pages. -/
def ehNCTxt (t : PyStr) : Bool := !ehReqTxt t && ehNotaCredito t

/-- The value of the `classificada` flag after the consolidated-registry
test (extractor.py:447-508). -/
def classificadaAposCC (t : PyStr) : Bool :=
  ehCheckTxt t || ehReqTxt t || ehNCTxt t || ehSicaf t || ehCadin t ||
    ehConsultaConsolidada t

/-- Generic-dispatch test of the loop body (extractor.py:511). -/
def ehDespGenTxt (t : PyStr) : Bool :=
  !classificadaAposCC t && buscaDespachoNum t

/-- The final value of the `classificada` flag (extractor.py:520). -/
def classificadaFinal (t : PyStr) : Bool :=
  classificadaAposCC t || ehDespGenTxt t || ehContrato t

/-- The non-exclusive tail of the loop body (extractor.py:473-521):
reached when none of the four exclusive tests fired; appends the page to
every bucket whose test passes, and to `nao_classificada` when none did. -/
def restoClassificacao (c : Classificadas) (pag : Pagina) (texto : PyStr) :
    Classificadas where
  capa := c.capa
  termo_abertura := c.termo_abertura
  checklist := if ehCheckTxt texto then c.checklist ++ [pag] else c.checklist
  requisicao := if ehReqTxt texto then c.requisicao ++ [pag] else c.requisicao
  nota_credito :=
    if ehNCTxt texto then c.nota_credito ++ [pag] else c.nota_credito
  sicaf := if ehSicaf texto then c.sicaf ++ [pag] else c.sicaf
  cadin := if ehCadin texto then c.cadin ++ [pag] else c.cadin
  consulta_consolidada :=
    if ehConsultaConsolidada texto then c.consulta_consolidada ++ [pag]
    else c.consulta_consolidada
  despacho := if ehDespGenTxt texto then c.despacho ++ [pag] else c.despacho
  contrato := if ehContrato texto then c.contrato ++ [pag] else c.contrato
  edital := c.edital
  nao_classificada :=
    if !classificadaFinal texto then c.nao_classificada ++ [pag]
    else c.nao_classificada

/-- One iteration of the classification loop (extractor.py:445-521):
cover, opening-term, approval-dispatch and forwarding-dispatch pages are
exclusive (`continue`); all other tests run in sequence. -/
def classificarUma (c : Classificadas) (pag : Pagina) : Classificadas :=
  let texto := pyUpper pag.texto
  if ehCapa texto then { c with capa := c.capa ++ [pag] }
  else if ehTermoAbertura texto then
    { c with termo_abertura := c.termo_abertura ++ [pag] }
  else if buscaDespachoNum texto && contem texto "APROVO".toList then
    { c with despacho := c.despacho ++ [pag] }
  else if buscaDespachoNum texto && contem texto "ENCAMINHO".toList then
    { c with despacho := c.despacho ++ [pag] }
  else restoClassificacao c pag texto

/-- `_classificar_paginas` (extractor.py:422-523). -/
def classificarPaginas (paginas : List Pagina) : Classificadas :=
  paginas.foldl classificarUma classificadasVazias

-- ── Derived per-bucket conditions (characterising the loop's control
-- flow; used only in the theorems below) ──────────────────────────────

/-- Approval-dispatch test of the loop body (extractor.py:462). -/
def condDespAprov (u : PyStr) : Bool :=
  buscaDespachoNum u && contem u "APROVO".toList

/-- Forwarding-dispatch test of the loop body (extractor.py:468). -/
def condDespEncam (u : PyStr) : Bool :=
  buscaDespachoNum u && contem u "ENCAMINHO".toList

/-- The page reaches the non-exclusive tail of the loop. -/
def condResto (u : PyStr) : Bool :=
  !ehCapa u && !ehTermoAbertura u && !condDespAprov u && !condDespEncam u

/-- The page is appended to the `despacho` bucket (any of the three
insertion sites). -/
def condDespacho (u : PyStr) : Bool :=
  !ehCapa u && !ehTermoAbertura u &&
    (condDespAprov u || condDespEncam u || ehDespGenTxt u)

theorem ite_append_singleton {α : Type} (P : Prop) [Decidable P]
    (X : List α) (q : α) :
    (if P then X ++ [q] else X) = X ++ (if P then [q] else []) := by
  by_cases h : P <;> simp [h]

/-- Master characterisation of one loop iteration: each bucket grows by
`[pag]` exactly under its condition. -/
theorem classificarUma_eq (c : Classificadas) (q : Pagina) :
    classificarUma c q =
      { capa := c.capa ++ (if ehCapa (pyUpper q.texto) then [q] else []),
        termo_abertura := c.termo_abertura ++
          (if !ehCapa (pyUpper q.texto) && ehTermoAbertura (pyUpper q.texto)
            then [q] else []),
        checklist := c.checklist ++
          (if condResto (pyUpper q.texto) && ehCheckTxt (pyUpper q.texto)
            then [q] else []),
        requisicao := c.requisicao ++
          (if condResto (pyUpper q.texto) && ehReqTxt (pyUpper q.texto)
            then [q] else []),
        nota_credito := c.nota_credito ++
          (if condResto (pyUpper q.texto) && ehNCTxt (pyUpper q.texto)
            then [q] else []),
        sicaf := c.sicaf ++
          (if condResto (pyUpper q.texto) && ehSicaf (pyUpper q.texto)
            then [q] else []),
        cadin := c.cadin ++
          (if condResto (pyUpper q.texto) && ehCadin (pyUpper q.texto)
            then [q] else []),
        consulta_consolidada := c.consulta_consolidada ++
          (if condResto (pyUpper q.texto) &&
              ehConsultaConsolidada (pyUpper q.texto) then [q] else []),
        despacho := c.despacho ++
          (if condDespacho (pyUpper q.texto) then [q] else []),
        contrato := c.contrato ++
          (if condResto (pyUpper q.texto) && ehContrato (pyUpper q.texto)
            then [q] else []),
        edital := c.edital,
        nao_classificada := c.nao_classificada ++
          (if condResto (pyUpper q.texto) &&
              !classificadaFinal (pyUpper q.texto) then [q] else []) } := by
  by_cases h1 : ehCapa (pyUpper q.texto) = true
  · simp [classificarUma, restoClassificacao, condResto, condDespacho,
      condDespAprov, condDespEncam, h1]
  · by_cases h2 : ehTermoAbertura (pyUpper q.texto) = true
    · simp [classificarUma, restoClassificacao, condResto, condDespacho,
        condDespAprov, condDespEncam, h1, h2]
    · by_cases hB : buscaDespachoNum (pyUpper q.texto) = true
      · by_cases hA :
            contem (pyUpper q.texto) ['A', 'P', 'R', 'O', 'V', 'O'] = true
        · simp [classificarUma, restoClassificacao, condResto, condDespacho,
            condDespAprov, condDespEncam, h1, h2, hB, hA]
        · by_cases hE : contem (pyUpper q.texto)
              ['E', 'N', 'C', 'A', 'M', 'I', 'N', 'H', 'O'] = true
          · simp [classificarUma, restoClassificacao, condResto,
              condDespacho, condDespAprov, condDespEncam, h1, h2, hB, hA, hE]
          · simp [classificarUma, restoClassificacao, condResto,
              condDespacho, condDespAprov, condDespEncam, h1, h2, hB, hA, hE,
              ite_append_singleton]
      · simp [classificarUma, restoClassificacao, condResto, condDespacho,
          condDespAprov, condDespEncam, h1, h2, hB, ite_append_singleton]

theorem mem_foldl_bucket
    (f : Classificadas → List Pagina) (cond : Pagina → Bool)
    (hstep : ∀ c q, f (classificarUma c q) =
      f c ++ (if cond q = true then [q] else [])) :
    ∀ (ps : List Pagina) (c : Classificadas) (p : Pagina),
      p ∈ f (ps.foldl classificarUma c) ↔
        p ∈ f c ∨ (p ∈ ps ∧ cond p = true) := by
  intro ps
  induction ps with
  | nil => intro c p; simp
  | cons q ps ih =>
    intro c p
    rw [List.foldl_cons, ih, hstep]
    constructor
    · rintro (hm | hm)
      · rcases List.mem_append.mp hm with hm | hm
        · exact Or.inl hm
        · by_cases hc : cond q = true
          · rw [if_pos hc] at hm
            have he : p = q := List.mem_singleton.mp hm
            exact Or.inr ⟨he ▸ List.mem_cons_self q ps, he ▸ hc⟩
          · rw [if_neg hc] at hm
            simp at hm
      · exact Or.inr ⟨List.mem_cons_of_mem _ hm.1, hm.2⟩
    · rintro (hm | ⟨hm, hc⟩)
      · exact Or.inl (List.mem_append.mpr (Or.inl hm))
      · rcases List.mem_cons.mp hm with he | hm'
        · subst he
          exact Or.inl (List.mem_append.mpr (Or.inr (by simp [hc])))
        · exact Or.inr ⟨hm', hc⟩

theorem mem_classificar_capa (ps : List Pagina) (p : Pagina) :
    p ∈ (classificarPaginas ps).capa ↔
      p ∈ ps ∧ ehCapa (pyUpper p.texto) = true := by
  have h := mem_foldl_bucket (fun c => c.capa)
    (fun q => ehCapa (pyUpper q.texto))
    (fun c q => by rw [classificarUma_eq]) ps classificadasVazias p
  simpa [classificarPaginas, classificadasVazias] using h

theorem mem_classificar_termo (ps : List Pagina) (p : Pagina) :
    p ∈ (classificarPaginas ps).termo_abertura ↔
      p ∈ ps ∧ (!ehCapa (pyUpper p.texto) &&
        ehTermoAbertura (pyUpper p.texto)) = true := by
  have h := mem_foldl_bucket (fun c => c.termo_abertura)
    (fun q => !ehCapa (pyUpper q.texto) && ehTermoAbertura (pyUpper q.texto))
    (fun c q => by rw [classificarUma_eq]) ps classificadasVazias p
  simpa [classificarPaginas, classificadasVazias] using h

theorem mem_classificar_checklist (ps : List Pagina) (p : Pagina) :
    p ∈ (classificarPaginas ps).checklist ↔
      p ∈ ps ∧ (condResto (pyUpper p.texto) &&
        ehCheckTxt (pyUpper p.texto)) = true := by
  have h := mem_foldl_bucket (fun c => c.checklist)
    (fun q => condResto (pyUpper q.texto) && ehCheckTxt (pyUpper q.texto))
    (fun c q => by rw [classificarUma_eq]) ps classificadasVazias p
  simpa [classificarPaginas, classificadasVazias] using h

theorem mem_classificar_requisicao (ps : List Pagina) (p : Pagina) :
    p ∈ (classificarPaginas ps).requisicao ↔
      p ∈ ps ∧ (condResto (pyUpper p.texto) &&
        ehReqTxt (pyUpper p.texto)) = true := by
  have h := mem_foldl_bucket (fun c => c.requisicao)
    (fun q => condResto (pyUpper q.texto) && ehReqTxt (pyUpper q.texto))
    (fun c q => by rw [classificarUma_eq]) ps classificadasVazias p
  simpa [classificarPaginas, classificadasVazias] using h

theorem mem_classificar_nota_credito (ps : List Pagina) (p : Pagina) :
    p ∈ (classificarPaginas ps).nota_credito ↔
      p ∈ ps ∧ (condResto (pyUpper p.texto) &&
        ehNCTxt (pyUpper p.texto)) = true := by
  have h := mem_foldl_bucket (fun c => c.nota_credito)
    (fun q => condResto (pyUpper q.texto) && ehNCTxt (pyUpper q.texto))
    (fun c q => by rw [classificarUma_eq]) ps classificadasVazias p
  simpa [classificarPaginas, classificadasVazias] using h

theorem mem_classificar_sicaf (ps : List Pagina) (p : Pagina) :
    p ∈ (classificarPaginas ps).sicaf ↔
      p ∈ ps ∧ (condResto (pyUpper p.texto) &&
        ehSicaf (pyUpper p.texto)) = true := by
  have h := mem_foldl_bucket (fun c => c.sicaf)
    (fun q => condResto (pyUpper q.texto) && ehSicaf (pyUpper q.texto))
    (fun c q => by rw [classificarUma_eq]) ps classificadasVazias p
  simpa [classificarPaginas, classificadasVazias] using h

theorem mem_classificar_cadin (ps : List Pagina) (p : Pagina) :
    p ∈ (classificarPaginas ps).cadin ↔
      p ∈ ps ∧ (condResto (pyUpper p.texto) &&
        ehCadin (pyUpper p.texto)) = true := by
  have h := mem_foldl_bucket (fun c => c.cadin)
    (fun q => condResto (pyUpper q.texto) && ehCadin (pyUpper q.texto))
    (fun c q => by rw [classificarUma_eq]) ps classificadasVazias p
  simpa [classificarPaginas, classificadasVazias] using h

theorem mem_classificar_consulta (ps : List Pagina) (p : Pagina) :
    p ∈ (classificarPaginas ps).consulta_consolidada ↔
      p ∈ ps ∧ (condResto (pyUpper p.texto) &&
        ehConsultaConsolidada (pyUpper p.texto)) = true := by
  have h := mem_foldl_bucket (fun c => c.consulta_consolidada)
    (fun q => condResto (pyUpper q.texto) &&
      ehConsultaConsolidada (pyUpper q.texto))
    (fun c q => by rw [classificarUma_eq]) ps classificadasVazias p
  simpa [classificarPaginas, classificadasVazias] using h

theorem mem_classificar_despacho (ps : List Pagina) (p : Pagina) :
    p ∈ (classificarPaginas ps).despacho ↔
      p ∈ ps ∧ condDespacho (pyUpper p.texto) = true := by
  have h := mem_foldl_bucket (fun c => c.despacho)
    (fun q => condDespacho (pyUpper q.texto))
    (fun c q => by rw [classificarUma_eq]) ps classificadasVazias p
  simpa [classificarPaginas, classificadasVazias] using h

theorem mem_classificar_contrato (ps : List Pagina) (p : Pagina) :
    p ∈ (classificarPaginas ps).contrato ↔
      p ∈ ps ∧ (condResto (pyUpper p.texto) &&
        ehContrato (pyUpper p.texto)) = true := by
  have h := mem_foldl_bucket (fun c => c.contrato)
    (fun q => condResto (pyUpper q.texto) && ehContrato (pyUpper q.texto))
    (fun c q => by rw [classificarUma_eq]) ps classificadasVazias p
  simpa [classificarPaginas, classificadasVazias] using h

theorem mem_classificar_edital (ps : List Pagina) (p : Pagina) :
    p ∉ (classificarPaginas ps).edital := by
  have h := mem_foldl_bucket (fun c => c.edital) (fun _ => false)
    (fun c q => by rw [classificarUma_eq]; simp) ps classificadasVazias p
  simp [classificarPaginas] at h ⊢
  rw [h]
  simp [classificadasVazias]

theorem mem_classificar_nao (ps : List Pagina) (p : Pagina) :
    p ∈ (classificarPaginas ps).nao_classificada ↔
      p ∈ ps ∧ (condResto (pyUpper p.texto) &&
        !classificadaFinal (pyUpper p.texto)) = true := by
  have h := mem_foldl_bucket (fun c => c.nao_classificada)
    (fun q => condResto (pyUpper q.texto) &&
      !classificadaFinal (pyUpper q.texto))
    (fun c q => by rw [classificarUma_eq]) ps classificadasVazias p
  simpa [classificarPaginas, classificadasVazias] using h

-- ══════════════════════════════════════════════════════════════════════
-- Page acquisition (native text + OCR fallback)
-- ══════════════════════════════════════════════════════════════════════

/-- `_MIN_TEXTO_UTIL` (extractor.py:72). -/
def MIN_TEXTO_UTIL : Nat := 30

/-- Character class of the footer's process number: digits, dot, slash
and dash. -/
def ehClasseNumRodape (c : Char) : Bool :=
  c.isDigit || c = '.' || c = '/' || c = '-'

/-- Tail of the digital-footer pattern after the process number:
`\s*Pág\s+\d+\s+de\s+\d+\s*$` (case-insensitive, must reach the end). -/
def rodapeCauda (l : PyStr) : Bool :=
  match consumirLitCi "pág".toList (l.dropWhile isPySpace) with
  | none => false
  | some r =>
    match consumirWs1 r with
    | none => false
    | some r =>
      match r with
      | c :: r2 =>
        if c.isDigit then
          match consumirWs1 (r2.dropWhile Char.isDigit) with
          | none => false
          | some r3 =>
            match consumirLitCi "de".toList r3 with
            | none => false
            | some r4 =>
              match consumirWs1 r4 with
              | none => false
              | some r5 =>
                match r5 with
                | d :: r6 =>
                  d.isDigit &&
                    (r6.dropWhile Char.isDigit).dropWhile isPySpace = []
                | [] => false
        else false
      | [] => false

/-- `_RODAPE_DIGITAL.match(texto)` (extractor.py:75): the whole text is a
single digital-footer stamp — optional whitespace, the fixed phrase
`Este documento é peça do processo`, whitespace, a digit followed by at
least one number character, then the `Pág N de M` tail — anchored at both
ends and case-insensitive. -/
def matchRodape (l : PyStr) : Bool :=
  match consumirLitCi "este documento é peça do processo".toList
      (l.dropWhile isPySpace) with
  | none => false
  | some r =>
    match consumirWs1 r with
    | none => false
    | some r =>
      match r with
      | c :: r2 =>
        if c.isDigit then
          match r2 with
          | d :: _ =>
            if ehClasseNumRodape d then
              rodapeCauda (r2.dropWhile ehClasseNumRodape)
            else false
          | [] => false
        else false
      | [] => false

/-- The page record built by the first loop of `_extrair_paginas`
(extractor.py:378-397): strip the native text, test usable-text (longer
than the minimum and not footer-only), source `pdfplumber`. -/
def paginaInicial (i : Nat) (t : PyStr) : Pagina :=
  let texto := pyStrip t
  let temTexto := MIN_TEXTO_UTIL < texto.length && !matchRodape texto
  ⟨i + 1, texto, temTexto, !temTexto, "pdfplumber".toList⟩

/-- The OCR pass of `_extrair_paginas` (extractor.py:404-414) on one
page: pages with usable text are untouched; otherwise, when the OCR
oracle yields text longer than the minimum, the text, flag and source are
overwritten in place (`requer_ocr` stays `true`); otherwise the record is
kept as-is. -/
def aplicarOcrPagina (ocrF : Nat → Option PyStr) (i : Nat) (p : Pagina) :
    Pagina :=
  if p.tem_texto then p
  else
    match ocrF i with
    | some t =>
      if t ≠ [] ∧ MIN_TEXTO_UTIL < t.length then
        { p with texto := t, tem_texto := true, fonte := "ocr".toList }
      else p
    | none => p

/-- `_extrair_paginas` (extractor.py:365-415), with the PDF's native
per-page texts and the OCR engine abstracted as inputs: build one record
per page, then run the OCR pass over the pages that lacked usable text
(a no-op when OCR is unavailable). -/
def extrairPaginas (raw : List PyStr) (ocrF : Nat → Option PyStr)
    (ocrDisp : Bool) : List Pagina :=
  let iniciais := raw.enum.map fun par => paginaInicial par.1 par.2
  if ocrDisp then
    iniciais.map fun p => aplicarOcrPagina ocrF (p.numero - 1) p
  else iniciais

/-- The metadata-counting loop of `extrair_processo`
(extractor.py:251-262): returns `(paginas_com_texto, paginas_ocr)`. -/
def contarMetadata (ps : List Pagina) : Nat × Nat :=
  ps.foldl
    (fun acc p =>
      if p.fonte = "ocr".toList then (acc.1 + 1, acc.2 + 1)
      else if p.tem_texto then (acc.1 + 1, acc.2)
      else (acc.1, acc.2 + 1))
    (0, 0)

/-- The `paginas_ocr` counter. -/
def paginasOcr (ps : List Pagina) : Nat := (contarMetadata ps).2

/-- Per-page contribution to the `paginas_ocr` counter. -/
def indicadorOcr (p : Pagina) : Nat :=
  if p.fonte = "ocr".toList then 1 else if p.tem_texto then 0 else 1

theorem indicadorOcr_fonte {p : Pagina} (h : p.fonte = "ocr".toList) :
    indicadorOcr p = 1 := by
  rw [indicadorOcr, if_pos h]

theorem indicadorOcr_texto {p : Pagina} (h1 : ¬p.fonte = "ocr".toList)
    (h2 : p.tem_texto = true) : indicadorOcr p = 0 := by
  rw [indicadorOcr, if_neg h1, if_pos h2]

theorem indicadorOcr_falha {p : Pagina} (h1 : ¬p.fonte = "ocr".toList)
    (h2 : ¬p.tem_texto = true) : indicadorOcr p = 1 := by
  rw [indicadorOcr, if_neg h1, if_neg h2]

theorem contarMetadata_snd (ps : List Pagina) :
    ∀ a b : Nat,
      (ps.foldl
        (fun acc p =>
          if p.fonte = "ocr".toList then (acc.1 + 1, acc.2 + 1)
          else if p.tem_texto then (acc.1 + 1, acc.2)
          else (acc.1, acc.2 + 1))
        (a, b)).2 = b + (ps.map indicadorOcr).sum := by
  induction ps with
  | nil => intro a b; simp
  | cons p rest ih =>
    intro a b
    rw [List.foldl_cons]
    by_cases h1 : p.fonte = "ocr".toList
    · rw [if_pos h1, ih, List.map_cons, List.sum_cons,
        indicadorOcr_fonte h1]
      omega
    · rw [if_neg h1]
      by_cases h2 : p.tem_texto
      · rw [if_pos h2, ih, List.map_cons, List.sum_cons,
          indicadorOcr_texto h1 h2]
        omega
      · rw [if_neg h2, ih, List.map_cons, List.sum_cons,
          indicadorOcr_falha h1 h2]
        omega

theorem paginasOcr_eq_sum (ps : List Pagina) :
    paginasOcr ps = (ps.map indicadorOcr).sum := by
  unfold paginasOcr contarMetadata
  rw [contarMetadata_snd]
  simp

theorem sum_map_eraseIdx {α : Type} (f : α → Nat) :
    ∀ (ps : List α) (i : Nat) (p : α), ps.get? i = some p →
      (ps.map f).sum = ((ps.eraseIdx i).map f).sum + f p := by
  intro ps
  induction ps with
  | nil => intro i p hp; simp at hp
  | cons q rest ih =>
    intro i p hp
    rcases i with _ | j
    · simp at hp
      subst hp
      simp [List.eraseIdx]
      omega
    · rw [List.get?_cons_succ] at hp
      rw [List.eraseIdx_cons_succ]
      simp only [List.map_cons, List.sum_cons, ih j p hp]
      omega

theorem extrairPaginas_get? (raw : List PyStr) (ocrF : Nat → Option PyStr)
    (i : Nat) (t : PyStr) (hget : raw.get? i = some t) :
    (extrairPaginas raw ocrF true).get? i =
      some (aplicarOcrPagina ocrF i (paginaInicial i t)) := by
  unfold extrairPaginas
  simp only [eq_self_iff_true, ite_true, List.get?_map, List.get?_enum,
    hget, Option.map_some']
  rfl

-- ══════════════════════════════════════════════════════════════════════
-- C4 and C5: unusable pages with failed OCR
-- ══════════════════════════════════════════════════════════════════════

/-- Counterexample to C5: a page whose native text is empty and whose OCR
run produced an empty result keeps `fonte = "pdfplumber"` — it does not
carry source `ocr` as the claim states. -/
theorem c5_contraexemplo_fonte :
    extrairPaginas [[]] (fun _ => some []) true =
      [⟨1, [], false, true, "pdfplumber".toList⟩]
    ∧ ("pdfplumber".toList : PyStr) ≠ "ocr".toList := by
  decide

/-- C5 (amended): a page whose native extraction was unusable and whose
OCR yielded nothing above the minimum length keeps its stripped native
text, keeps source `pdfplumber` (with `requer_ocr = true`), and
contributes exactly one to the `paginas_ocr` counter. -/
theorem c5_ocr_falho_pagina_inalterada (raw : List PyStr)
    (ocrF : Nat → Option PyStr) (i : Nat) (t : PyStr)
    (hget : raw.get? i = some t)
    (hun : (paginaInicial i t).tem_texto = false)
    (hocr : ∀ s, ocrF i = some s → s = [] ∨ s.length ≤ MIN_TEXTO_UTIL) :
    (extrairPaginas raw ocrF true).get? i = some (paginaInicial i t)
    ∧ (paginaInicial i t).texto = pyStrip t
    ∧ (paginaInicial i t).fonte = "pdfplumber".toList
    ∧ (paginaInicial i t).requer_ocr = true
    ∧ paginasOcr (extrairPaginas raw ocrF true) =
        paginasOcr ((extrairPaginas raw ocrF true).eraseIdx i) + 1 := by
  have hid : aplicarOcrPagina ocrF i (paginaInicial i t) = paginaInicial i t := by
    unfold aplicarOcrPagina
    rw [if_neg (by rw [hun]; exact Bool.false_ne_true)]
    rcases hO : ocrF i with _ | s
    · rfl
    · dsimp only
      rcases hocr s hO with hs | hs
      · rw [if_neg]
        rintro ⟨hne, _⟩
        exact hne hs
      · rw [if_neg]
        rintro ⟨_, hlt⟩
        omega
  have hreq : (paginaInicial i t).requer_ocr = true := by
    have : (paginaInicial i t).requer_ocr = !(paginaInicial i t).tem_texto := rfl
    rw [this, hun]
    rfl
  refine ⟨by rw [extrairPaginas_get? raw ocrF i t hget, hid], rfl, rfl, hreq, ?_⟩
  have hg : (extrairPaginas raw ocrF true).get? i = some (paginaInicial i t) := by
    rw [extrairPaginas_get? raw ocrF i t hget, hid]
  rw [paginasOcr_eq_sum, paginasOcr_eq_sum,
    sum_map_eraseIdx indicadorOcr _ i _ hg,
    indicadorOcr_falha (by rw [show (paginaInicial i t).fonte = "pdfplumber".toList from rfl]; decide)
      (by rw [hun]; exact Bool.false_ne_true)]

/-- Witness for C5 (amended): a one-page PDF whose page is an image
(empty native text) and whose OCR returns empty text. -/
theorem c5_ocr_falho_pagina_inalterada_witness :
    (extrairPaginas [[]] (fun _ => some []) true).get? 0 =
      some (paginaInicial 0 [])
    ∧ paginasOcr (extrairPaginas [[]] (fun _ => some []) true) =
        paginasOcr ((extrairPaginas [[]] (fun _ => some []) true).eraseIdx 0) + 1 := by
  have h := c5_ocr_falho_pagina_inalterada [[]] (fun _ => some []) 0 []
    (by decide) (by decide)
    (fun s hs => Or.inl (by injection hs with h; exact h.symm))
  exact ⟨h.1, h.2.2.2.2⟩

/-- Counterexample to C4: a page with unusable short text
(`"PROCESSO NUP"`, 12 characters, below the 30-character minimum) whose
OCR produced nothing is classified as a cover page, not as
`nao_classificada`. -/
theorem c4_contraexemplo :
    extrairPaginas ["PROCESSO NUP".toList] (fun _ => none) true =
      [⟨1, "PROCESSO NUP".toList, false, true, "pdfplumber".toList⟩]
    ∧ (classificarPaginas
        [⟨1, "PROCESSO NUP".toList, false, true, "pdfplumber".toList⟩]).capa =
      [⟨1, "PROCESSO NUP".toList, false, true, "pdfplumber".toList⟩]
    ∧ (classificarPaginas
        [⟨1, "PROCESSO NUP".toList, false, true,
          "pdfplumber".toList⟩]).nao_classificada = [] := by
  decide

/-- C4 (amended): a page whose text is empty (native extraction empty and
OCR failed leaves it so) is placed in `nao_classificada` and in no other
bucket. -/
theorem c4_pagina_vazia_nao_classificada (ps : List Pagina) (p : Pagina)
    (hp : p ∈ ps) (hv : p.texto = []) :
    p ∈ (classificarPaginas ps).nao_classificada
    ∧ p ∉ (classificarPaginas ps).capa
    ∧ p ∉ (classificarPaginas ps).termo_abertura
    ∧ p ∉ (classificarPaginas ps).checklist
    ∧ p ∉ (classificarPaginas ps).requisicao
    ∧ p ∉ (classificarPaginas ps).nota_credito
    ∧ p ∉ (classificarPaginas ps).sicaf
    ∧ p ∉ (classificarPaginas ps).cadin
    ∧ p ∉ (classificarPaginas ps).consulta_consolidada
    ∧ p ∉ (classificarPaginas ps).despacho
    ∧ p ∉ (classificarPaginas ps).contrato
    ∧ p ∉ (classificarPaginas ps).edital := by
  have hu : pyUpper p.texto = [] := by rw [hv]; rfl
  refine ⟨?_, ?_, ?_, ?_, ?_, ?_, ?_, ?_, ?_, ?_, ?_,
    mem_classificar_edital ps p⟩
  · rw [mem_classificar_nao]
    exact ⟨hp, by rw [hu]; decide⟩
  · rw [mem_classificar_capa]
    rintro ⟨_, hc⟩
    rw [hu] at hc
    exact absurd hc (by decide)
  · rw [mem_classificar_termo]
    rintro ⟨_, hc⟩
    rw [hu] at hc
    exact absurd hc (by decide)
  · rw [mem_classificar_checklist]
    rintro ⟨_, hc⟩
    rw [hu] at hc
    exact absurd hc (by decide)
  · rw [mem_classificar_requisicao]
    rintro ⟨_, hc⟩
    rw [hu] at hc
    exact absurd hc (by decide)
  · rw [mem_classificar_nota_credito]
    rintro ⟨_, hc⟩
    rw [hu] at hc
    exact absurd hc (by decide)
  · rw [mem_classificar_sicaf]
    rintro ⟨_, hc⟩
    rw [hu] at hc
    exact absurd hc (by decide)
  · rw [mem_classificar_cadin]
    rintro ⟨_, hc⟩
    rw [hu] at hc
    exact absurd hc (by decide)
  · rw [mem_classificar_consulta]
    rintro ⟨_, hc⟩
    rw [hu] at hc
    exact absurd hc (by decide)
  · rw [mem_classificar_despacho]
    rintro ⟨_, hc⟩
    rw [hu] at hc
    exact absurd hc (by decide)
  · rw [mem_classificar_contrato]
    rintro ⟨_, hc⟩
    rw [hu] at hc
    exact absurd hc (by decide)

/-- Witness for C4 (amended): a concrete empty page among others. -/
theorem c4_pagina_vazia_nao_classificada_witness :
    (⟨2, [], false, true, "pdfplumber".toList⟩ : Pagina) ∈
      (classificarPaginas
        [⟨1, "PROCESSO NUP".toList, false, true, "pdfplumber".toList⟩,
          ⟨2, [], false, true, "pdfplumber".toList⟩]).nao_classificada
    ∧ (⟨2, [], false, true, "pdfplumber".toList⟩ : Pagina) ∉
      (classificarPaginas
        [⟨1, "PROCESSO NUP".toList, false, true, "pdfplumber".toList⟩,
          ⟨2, [], false, true, "pdfplumber".toList⟩]).capa :=
  have h := c4_pagina_vazia_nao_classificada
    [⟨1, "PROCESSO NUP".toList, false, true, "pdfplumber".toList⟩,
      ⟨2, [], false, true, "pdfplumber".toList⟩]
    ⟨2, [], false, true, "pdfplumber".toList⟩
    (by decide) rfl
  ⟨h.1, h.2.1⟩

-- ══════════════════════════════════════════════════════════════════════
-- C8: exclusivity of cover / opening-term / approved-dispatch pages
-- ══════════════════════════════════════════════════════════════════════

/-- Counterexample to C8: a page matching both the cover and the
opening-term predicates is placed in `capa` only — it matches the
opening-term predicate yet does not appear in the `termo_abertura` list,
so "a page matching the opening-term predicate appears only in that
category's list" fails as stated. -/
theorem c8_contraexemplo :
    ehTermoAbertura
      (pyUpper "TERMO DE ABERTURA PROTOCOLO GERAL".toList) = true
    ∧ (classificarPaginas
        [⟨1, "TERMO DE ABERTURA PROTOCOLO GERAL".toList, true, false,
          "pdfplumber".toList⟩]).capa =
      [⟨1, "TERMO DE ABERTURA PROTOCOLO GERAL".toList, true, false,
        "pdfplumber".toList⟩]
    ∧ (classificarPaginas
        [⟨1, "TERMO DE ABERTURA PROTOCOLO GERAL".toList, true, false,
          "pdfplumber".toList⟩]).termo_abertura = [] := by
  decide

/-- C8 (amended): classification is a pure function of the pages, and the
three banner categories are exclusive in priority order — a page matching
the cover predicate is in `capa` and in no other bucket; a page matching
the opening-term predicate but not the cover predicate is in
`termo_abertura` and in no other bucket; a page matching the
approval-dispatch test but neither banner predicate is in `despacho` and
in no other bucket. -/
theorem c8_exclusividade_prioridade (ps : List Pagina) (p : Pagina)
    (hp : p ∈ ps) :
    (ehCapa (pyUpper p.texto) = true →
      p ∈ (classificarPaginas ps).capa
      ∧ p ∉ (classificarPaginas ps).termo_abertura
      ∧ p ∉ (classificarPaginas ps).checklist
      ∧ p ∉ (classificarPaginas ps).requisicao
      ∧ p ∉ (classificarPaginas ps).nota_credito
      ∧ p ∉ (classificarPaginas ps).sicaf
      ∧ p ∉ (classificarPaginas ps).cadin
      ∧ p ∉ (classificarPaginas ps).consulta_consolidada
      ∧ p ∉ (classificarPaginas ps).despacho
      ∧ p ∉ (classificarPaginas ps).contrato
      ∧ p ∉ (classificarPaginas ps).edital
      ∧ p ∉ (classificarPaginas ps).nao_classificada)
    ∧ (ehCapa (pyUpper p.texto) = false →
        ehTermoAbertura (pyUpper p.texto) = true →
      p ∈ (classificarPaginas ps).termo_abertura
      ∧ p ∉ (classificarPaginas ps).capa
      ∧ p ∉ (classificarPaginas ps).checklist
      ∧ p ∉ (classificarPaginas ps).requisicao
      ∧ p ∉ (classificarPaginas ps).nota_credito
      ∧ p ∉ (classificarPaginas ps).sicaf
      ∧ p ∉ (classificarPaginas ps).cadin
      ∧ p ∉ (classificarPaginas ps).consulta_consolidada
      ∧ p ∉ (classificarPaginas ps).despacho
      ∧ p ∉ (classificarPaginas ps).contrato
      ∧ p ∉ (classificarPaginas ps).edital
      ∧ p ∉ (classificarPaginas ps).nao_classificada)
    ∧ (ehCapa (pyUpper p.texto) = false →
        ehTermoAbertura (pyUpper p.texto) = false →
        condDespAprov (pyUpper p.texto) = true →
      p ∈ (classificarPaginas ps).despacho
      ∧ p ∉ (classificarPaginas ps).capa
      ∧ p ∉ (classificarPaginas ps).termo_abertura
      ∧ p ∉ (classificarPaginas ps).checklist
      ∧ p ∉ (classificarPaginas ps).requisicao
      ∧ p ∉ (classificarPaginas ps).nota_credito
      ∧ p ∉ (classificarPaginas ps).sicaf
      ∧ p ∉ (classificarPaginas ps).cadin
      ∧ p ∉ (classificarPaginas ps).consulta_consolidada
      ∧ p ∉ (classificarPaginas ps).contrato
      ∧ p ∉ (classificarPaginas ps).edital
      ∧ p ∉ (classificarPaginas ps).nao_classificada) := by
  refine ⟨fun h1 => ?_, fun h1 h2 => ?_, fun h1 h2 h3 => ?_⟩
  · refine ⟨(mem_classificar_capa ps p).mpr ⟨hp, h1⟩, ?_, ?_, ?_, ?_, ?_,
      ?_, ?_, ?_, ?_, mem_classificar_edital ps p, ?_⟩ <;>
      [rw [mem_classificar_termo]; rw [mem_classificar_checklist];
        rw [mem_classificar_requisicao]; rw [mem_classificar_nota_credito];
        rw [mem_classificar_sicaf]; rw [mem_classificar_cadin];
        rw [mem_classificar_consulta]; rw [mem_classificar_despacho];
        rw [mem_classificar_contrato]; rw [mem_classificar_nao]] <;>
      (rintro ⟨_, hc⟩;
        simp [condResto, condDespacho, h1] at hc)
  · refine ⟨(mem_classificar_termo ps p).mpr ⟨hp, by simp [h1, h2]⟩,
      ?_, ?_, ?_, ?_, ?_, ?_, ?_, ?_, ?_,
      mem_classificar_edital ps p, ?_⟩ <;>
      [rw [mem_classificar_capa]; rw [mem_classificar_checklist];
        rw [mem_classificar_requisicao]; rw [mem_classificar_nota_credito];
        rw [mem_classificar_sicaf]; rw [mem_classificar_cadin];
        rw [mem_classificar_consulta]; rw [mem_classificar_despacho];
        rw [mem_classificar_contrato]; rw [mem_classificar_nao]] <;>
      (rintro ⟨_, hc⟩;
        simp [condResto, condDespacho, h1, h2] at hc)
  · refine ⟨(mem_classificar_despacho ps p).mpr
        ⟨hp, by simp [condDespacho, h1, h2, h3]⟩,
      ?_, ?_, ?_, ?_, ?_, ?_, ?_, ?_, ?_,
      mem_classificar_edital ps p, ?_⟩ <;>
      [rw [mem_classificar_capa]; rw [mem_classificar_termo];
        rw [mem_classificar_checklist]; rw [mem_classificar_requisicao];
        rw [mem_classificar_nota_credito]; rw [mem_classificar_sicaf];
        rw [mem_classificar_cadin]; rw [mem_classificar_consulta];
        rw [mem_classificar_contrato]; rw [mem_classificar_nao]] <;>
      (rintro ⟨_, hc⟩;
        simp [condResto, h1, h2, h3] at hc)

/-- Witness for C8 (amended): a cover page mentioning SICAF phrases lands
only in `capa`; an approval dispatch lands only in `despacho`. -/
theorem c8_exclusividade_prioridade_witness :
    (⟨1, "PROTOCOLO GERAL DADOS DO FORNECEDOR".toList, true, false,
        "pdfplumber".toList⟩ : Pagina) ∈
      (classificarPaginas
        [⟨1, "PROTOCOLO GERAL DADOS DO FORNECEDOR".toList, true, false,
          "pdfplumber".toList⟩]).capa
    ∧ (⟨1, "PROTOCOLO GERAL DADOS DO FORNECEDOR".toList, true, false,
        "pdfplumber".toList⟩ : Pagina) ∉
      (classificarPaginas
        [⟨1, "PROTOCOLO GERAL DADOS DO FORNECEDOR".toList, true, false,
          "pdfplumber".toList⟩]).sicaf
    ∧ (⟨1, "DESPACHO Nº 12 APROVO A DESPESA".toList, true, false,
        "pdfplumber".toList⟩ : Pagina) ∈
      (classificarPaginas
        [⟨1, "DESPACHO Nº 12 APROVO A DESPESA".toList, true, false,
          "pdfplumber".toList⟩]).despacho :=
  have h1 := c8_exclusividade_prioridade
    [⟨1, "PROTOCOLO GERAL DADOS DO FORNECEDOR".toList, true, false,
      "pdfplumber".toList⟩]
    ⟨1, "PROTOCOLO GERAL DADOS DO FORNECEDOR".toList, true, false,
      "pdfplumber".toList⟩ (by decide)
  have h2 := c8_exclusividade_prioridade
    [⟨1, "DESPACHO Nº 12 APROVO A DESPESA".toList, true, false,
      "pdfplumber".toList⟩]
    ⟨1, "DESPACHO Nº 12 APROVO A DESPESA".toList, true, false,
      "pdfplumber".toList⟩ (by decide)
  ⟨(h1.1 (by decide)).1, (h1.1 (by decide)).2.2.2.2.2.1,
    (h2.2.2 (by decide) (by decide) (by decide)).1⟩

-- ══════════════════════════════════════════════════════════════════════
-- Native item-table parser
-- ══════════════════════════════════════════════════════════════════════

/-- Replace newlines by spaces (Python `replace("\n", " ")`). -/
def substituirNl (l : PyStr) : PyStr :=
  l.map fun c => if c = '\n' then ' ' else c

/-- Numeric value of a digit run. -/
def valorDigitos (l : PyStr) : Nat :=
  l.foldl (fun a c => a * 10 + (c.toNat - 48)) 0

/-- Decomposition of a plain decimal literal: negative flag, integer
part, fractional digits and their count; `none` when Python `float(...)`
would raise `ValueError` (two dots, stray characters, empty). -/
def pyFloatDecomp (l : PyStr) : Option (Bool × Nat × Nat × Nat) :=
  let s := pyStrip l
  let par : Bool × PyStr :=
    match s with
    | '-' :: r => (true, r)
    | '+' :: r => (false, r)
    | _ => (false, s)
  let intPart := par.2.takeWhile Char.isDigit
  let rest := par.2.dropWhile Char.isDigit
  match rest with
  | [] =>
    if intPart = [] then none
    else some (par.1, valorDigitos intPart, 0, 0)
  | '.' :: fr =>
    let fracPart := fr.takeWhile Char.isDigit
    let rest2 := fr.dropWhile Char.isDigit
    if rest2 ≠ [] then none
    else if intPart = [] ∧ fracPart = [] then none
    else some (par.1, valorDigitos intPart, valorDigitos fracPart,
      fracPart.length)
  | _ => none

/-- Python `float(...)` restricted to the plain decimal literals this
parser can produce.  Exotic float syntax (exponents, `inf`, `nan`,
underscores) does not occur after `_parse_valor_br`'s cleanup of the
document repertoire and is outside the model. -/
def pyFloat (l : PyStr) : Option ℚ :=
  (pyFloatDecomp l).map fun q =>
    (if q.1 then (-1 : ℚ) else 1) *
      ((q.2.1 : ℚ) + (q.2.2.1 : ℚ) / (10 : ℚ) ^ q.2.2.2)

/-- `_parse_valor_br` (extractor.py:3606): strip, drop thousands dots,
turn the decimal comma into a dot, and parse; `none` on failure. -/
def parseValorBr (texto : PyStr) : Option ℚ :=
  if texto = [] then none
  else
    pyFloat (((pyStrip texto).filter (fun c => c ≠ '.')).map
      fun c => if c = ',' then '.' else c)

/-- Left-to-right scan for `re.sub(r"R\$\s*", "", v)`: when the flag is
set, the scanner is inside the `\s*` tail of a just-matched `R$` and
drops whitespace; at every other position a fresh `R$` match removes the
pair and sets the flag, and any other character is kept. -/
def removerRSGo : Bool → PyStr → PyStr
  | _, [] => []
  | _, 'R' :: '$' :: r2 => removerRSGo true r2
  | skip, c :: r =>
    if skip = true ∧ isPySpace c then removerRSGo true r
    else c :: removerRSGo false r

/-- `re.sub(r"R\$\s*", "", v)` of `_limpar_valor`
(extractor.py:1400-1404). -/
def removerRS (l : PyStr) : PyStr := removerRSGo false l

/-- `_limpar_valor` (extractor.py:1400): drop `R$` prefixes, strip, then
parse the Brazilian-format number. -/
def limparValor : Option PyStr → Option ℚ
  | none => none
  | some v => parseValorBr (pyStrip (removerRS v))

/-- One extracted item row
(the dict built at extractor.py:1406-1415). -/
structure ItemExtraido where
  item : Nat
  catserv : Option PyStr
  descricao : Option PyStr
  und : Option PyStr
  qtd : Option ℚ
  nd_si : Option PyStr
  p_unit : Option ℚ
  p_total : Option ℚ
  deriving DecidableEq, Repr

/-- The column map built by `_mapear_colunas` (extractor.py:1312). -/
structure MapaColunas where
  item : Option Nat
  catserv : Option Nat
  descricao : Option Nat
  und : Option Nat
  qtd : Option Nat
  nd_si : Option Nat
  p_unit : Option Nat
  p_total : Option Nat
  deriving DecidableEq, Repr

/-- The empty column map. -/
def mapaVazio : MapaColunas := ⟨none, none, none, none, none, none, none, none⟩

/-- End/next-char side of a `\b` boundary: not a word character. -/
def depoisNaoPalavra : PyStr → Bool
  | [] => true
  | c :: _ => !ehCaracterePalavra c

/-- Word-bounded occurrence of `word` at the current position (`prev` is
the preceding character, if any). -/
def casaPalavraPos (word : PyStr) (prev : Option Char) (l : PyStr) : Bool :=
  (match prev with
    | none => true
    | some c => !ehCaracterePalavra c) &&
  (match consumirLit word l with
    | some r => depoisNaoPalavra r
    | none => false)

/-- `re.search(r"\bWORD\b", l)`. -/
def buscaPalavraB (word : PyStr) : Option Char → PyStr → Bool
  | prev, [] => casaPalavraPos word prev []
  | prev, c :: t => casaPalavraPos word prev (c :: t) || buscaPalavraB word (some c) t

/-- Column regex `\bITEM\b|\bÍTEM\b` (extractor.py:1327). -/
def regexColItem (t : PyStr) : Bool :=
  buscaPalavraB "ITEM".toList none t || buscaPalavraB "ÍTEM".toList none t

/-- Column regex `CATMAT|CATSERV|C[ÓO]D` (extractor.py:1329). -/
def regexColCatserv (t : PyStr) : Bool :=
  contem t "CATMAT".toList || contem t "CATSERV".toList ||
    contem t "CÓD".toList || contem t "COD".toList

/-- Column regex `\bUND\b|\bUN\b|UNID` (extractor.py:1333). -/
def regexColUnd (t : PyStr) : Bool :=
  buscaPalavraB "UND".toList none t || buscaPalavraB "UN".toList none t ||
    contem t "UNID".toList

/-- Column regex `\bQTD\b|\bQUANT\b` (extractor.py:1335). -/
def regexColQtd (t : PyStr) : Bool :=
  buscaPalavraB "QTD".toList none t || buscaPalavraB "QUANT".toList none t

/-- `S\.?I\.?` anywhere in `l` (the trailing optional dots restrict
nothing). -/
def casaSI (l : PyStr) : Bool :=
  buscaEm
    (fun r =>
      match r with
      | 'S' :: '.' :: 'I' :: _ => true
      | 'S' :: 'I' :: _ => true
      | _ => false)
    l

/-- First alternative `\bND\b.*S\.?I\.?` at the current position. -/
def casaNDSIPos (prev : Option Char) (l : PyStr) : Bool :=
  (match prev with
    | none => true
    | some c => !ehCaracterePalavra c) &&
  (match consumirLit "ND".toList l with
    | some r => depoisNaoPalavra r && casaSI r
    | none => false)

/-- Second alternative `\bND\s*/\s*S` at the current position. -/
def casaNDBarraSPos (prev : Option Char) (l : PyStr) : Bool :=
  (match prev with
    | none => true
    | some c => !ehCaracterePalavra c) &&
  (match consumirLit "ND".toList l with
    | some r =>
      match r.dropWhile isPySpace with
      | '/' :: r2 =>
        match r2.dropWhile isPySpace with
        | 'S' :: _ => true
        | _ => false
      | _ => false
    | none => false)

/-- Search both ND alternatives over all positions. -/
def buscaNDSI : Option Char → PyStr → Bool
  | prev, [] => casaNDSIPos prev [] || casaNDBarraSPos prev []
  | prev, c :: t =>
    casaNDSIPos prev (c :: t) || casaNDBarraSPos prev (c :: t) ||
      buscaNDSI (some c) t

/-- Column regex `\bND\b.*S\.?I\.?|\bND\s*/\s*S` (extractor.py:1337). -/
def regexColNdSi (t : PyStr) : Bool := buscaNDSI none t

/-- Column regex `P[\.\s]*UNT|UNIT[ÁA]RIO|V[\.\s]*UNIT`
(extractor.py:1339). -/
def regexColPUnit (t : PyStr) : Bool :=
  buscaEm
    (fun r =>
      match r with
      | 'P' :: r2 =>
        ehPrefixo "UNT".toList
          (r2.dropWhile fun c => c = '.' || isPySpace c)
      | _ => false)
    t ||
  contem t "UNITÁRIO".toList || contem t "UNITARIO".toList ||
  buscaEm
    (fun r =>
      match r with
      | 'V' :: r2 =>
        ehPrefixo "UNIT".toList
          (r2.dropWhile fun c => c = '.' || isPySpace c)
      | _ => false)
    t

/-- Column regex `P[\s]*TOTAL|V[\.\s]*TOTAL` (extractor.py:1341): note
the first alternative allows only whitespace, not a dot, after `P`. -/
def regexColPTotal (t : PyStr) : Bool :=
  buscaEm
    (fun r =>
      match r with
      | 'P' :: r2 => ehPrefixo "TOTAL".toList (r2.dropWhile isPySpace)
      | _ => false)
    t ||
  buscaEm
    (fun r =>
      match r with
      | 'V' :: r2 =>
        ehPrefixo "TOTAL".toList
          (r2.dropWhile fun c => c = '.' || isPySpace c)
      | _ => false)
    t

/-- The `elif` chain of `_mapear_colunas` (extractor.py:1326-1342) on one
header cell: only the first matching unmapped key is assigned. -/
def processarCelulaMapa (m : MapaColunas) (i : Nat) (texto : PyStr) :
    MapaColunas :=
  if m.item = none ∧ regexColItem texto then { m with item := some i }
  else if m.catserv = none ∧ regexColCatserv texto then
    { m with catserv := some i }
  else if m.descricao = none ∧ contem texto "DESCRI".toList then
    { m with descricao := some i }
  else if m.und = none ∧ regexColUnd texto then { m with und := some i }
  else if m.qtd = none ∧ regexColQtd texto then { m with qtd := some i }
  else if m.nd_si = none ∧ regexColNdSi texto then { m with nd_si := some i }
  else if m.p_unit = none ∧ regexColPUnit texto then
    { m with p_unit := some i }
  else if m.p_total = none ∧ regexColPTotal texto then
    { m with p_total := some i }
  else m

/-- `_mapear_colunas` (extractor.py:1312-1344): iterate the header cells,
skip falsy cells, normalise (upper, newline→space, strip), and feed the
`elif` chain. -/
def mapearColunas (cabecalho : List (Option PyStr)) : MapaColunas :=
  go mapaVazio 0 cabecalho
where
  go (m : MapaColunas) (i : Nat) : List (Option PyStr) → MapaColunas
    | [] => m
    | cel :: rest =>
      let m2 :=
        match cel with
        | none => m
        | some s =>
          if s = [] then m
          else processarCelulaMapa m i (pyStrip (substituirNl (pyUpper s)))
      go m2 (i + 1) rest

/-- The joined, uppercased text of one table row
(extractor.py:1300-1302). -/
def textoLinha (linha : List (Option PyStr)) : PyStr :=
  List.intercalate [' ']
    (linha.filterMap fun cel =>
      match cel with
      | none => none
      | some s => if s = [] then none else some (pyUpper s))

/-- Header test of `_encontrar_cabecalho_itens` (extractor.py:1304-1308):
an `ITEM`-like token plus at least one table keyword. -/
def ehCabecalhoItens (t : PyStr) : Bool :=
  (contem t "ITEM".toList || contem t "ÍTEM".toList ||
      contem t "TEM".toList) &&
    (contem t "QTD".toList || contem t "UND".toList ||
      contem t "UNT".toList || contem t "TOTAL".toList ||
      contem t "ND".toList || contem t "DESCRI".toList)

/-- `_encontrar_cabecalho_itens` (extractor.py:1292-1309). -/
def encontrarCabecalhoItens (tabela : List (List (Option PyStr))) :
    Option Nat :=
  go 0 tabela
where
  go (i : Nat) : List (List (Option PyStr)) → Option Nat
    | [] => none
    | linha :: rest =>
      if linha = [] then go (i + 1) rest
      else if ehCabecalhoItens (textoLinha linha) then some i
      else go (i + 1) rest

/-- `_celula` of `_processar_linha_item` (extractor.py:1352-1357): the
mapped cell's value, newline→space then stripped, `none` when the column
is unmapped, out of range, or falsy. -/
def celula (linha : List (Option PyStr)) : Option Nat → Option PyStr
  | none => none
  | some i =>
    match linha.get? i with
    | some (some s) => if s = [] then none else some (pyStrip (substituirNl s))
    | _ => none

/-- First `(\d+)` group of a string, as a number. -/
def primeiroNumero : PyStr → Option Nat
  | [] => none
  | c :: t =>
    if c.isDigit then some (valorDigitos (c :: t.takeWhile Char.isDigit))
    else primeiroNumero t

/-- Adjacent-cell description fallback (extractor.py:1376-1382): any cell
other than the item column whose stripped text is longer than 15
characters. -/
def descricaoAdjacente (linha : List (Option PyStr)) (idxItem : Option Nat) :
    Option PyStr :=
  go 0 linha
where
  go (i : Nat) : List (Option PyStr) → Option PyStr
    | [] => none
    | cel :: rest =>
      match cel with
      | some s =>
        if some i ≠ idxItem ∧ s ≠ [] then
          let texto := pyStrip s
          if 15 < texto.length then some (substituirNl texto)
          else go (i + 1) rest
        else go (i + 1) rest
      | none => go (i + 1) rest

/-- `_processar_linha_item` (extractor.py:1347-1415). -/
def processarLinhaItem (linha : List (Option PyStr)) (m : MapaColunas) :
    Option ItemExtraido :=
  match celula linha m.item with
  | none => none
  | some itemStr =>
    -- `re.search(r"TOTAL|ITEM|ÍTEM", item_str, re.IGNORECASE)`
    if contem (pyUpper itemStr) "TOTAL".toList ||
        contem (pyUpper itemStr) "ITEM".toList ||
        contem (pyUpper itemStr) "ÍTEM".toList then none
    else
      match primeiroNumero itemStr with
      | none => none
      | some n =>
        let descricao :=
          match celula linha m.descricao with
          | some d => some d
          | none => descricaoAdjacente linha m.item
        -- the `m_nd` branch at extractor.py:1391-1393 keeps nd_si as-is
        let nd_si :=
          match celula linha m.nd_si with
          | some s => some (s.filter fun c => c ≠ ' ' ∧ c ≠ '\n')
          | none => none
        some
          { item := n
            catserv := celula linha m.catserv
            descricao := descricao
            und := celula linha m.und
            qtd :=
              match celula linha m.qtd with
              | some q => parseValorBr q
              | none => none
            nd_si := nd_si
            p_unit := limparValor (celula linha m.p_unit)
            p_total := limparValor (celula linha m.p_total) }

/-- Python truthiness of an optional string field. -/
def truthyStr : Option PyStr → Bool
  | none => false
  | some s => s ≠ []

/-- Python truthiness of an optional float field (`0.0` is falsy). -/
def truthyQ : Option ℚ → Bool
  | none => false
  | some v => v ≠ 0

/-- A continuation-row cell's cleaned value (extractor.py:1283-1285). -/
def valorCont (lc : List (Option PyStr)) : Option Nat → Option PyStr
  | none => none
  | some i =>
    match lc.get? i with
    | some (some s) =>
      if s = [] then none
      else
        let v := pyStrip (substituirNl s)
        if v = [] then none else some v
    | _ => none

/-- `_complementar_item` (extractor.py:1266-1289): fill `catserv`, `und`
and `qtd` from a continuation row, only when still empty/falsy. -/
def complementarItem (it : ItemExtraido) (lc : List (Option PyStr))
    (m : MapaColunas) : ItemExtraido :=
  let it1 :=
    if truthyStr it.catserv then it
    else
      match valorCont lc m.catserv with
      | some v => { it with catserv := some v }
      | none => it
  let it2 :=
    if truthyStr it1.und then it1
    else
      match valorCont lc m.und with
      | some v => { it1 with und := some v }
      | none => it1
  if truthyQ it2.qtd then it2
  else
    match valorCont lc m.qtd with
    | some v => { it2 with qtd := parseValorBr v }
    | none => it2

/-- The break test of the continuation scan (extractor.py:1252-1256): a
non-empty item cell not starting with `TOTAL` signals the next item. -/
def ehProximoItem (lc : List (Option PyStr)) (idxItem : Nat) : Bool :=
  match lc.get? idxItem with
  | some (some s) =>
    if s = [] then false
    else
      let val := pyStrip s
      val ≠ [] && !ehPrefixo "TOTAL".toList (pyUpper val)
  | _ => false

/-- The continuation scan over the (at most 2) following rows
(extractor.py:1247-1259). -/
def scanContinuacao (it : ItemExtraido) (m : MapaColunas) :
    List (List (Option PyStr)) → ItemExtraido
  | [] => it
  | lc :: rest =>
    if lc = [] then scanContinuacao it m rest
    else if ehProximoItem lc (m.item.getD 0) then it
    else scanContinuacao (complementarItem it lc m) m rest

/-- The data-row loop of `_processar_tabela_itens`
(extractor.py:1239-1261). -/
def processarLinhasTabela (m : MapaColunas) :
    List (List (Option PyStr)) → List ItemExtraido
  | [] => []
  | linha :: rest =>
    if linha = [] then processarLinhasTabela m rest
    else
      match processarLinhaItem linha m with
      | none => processarLinhasTabela m rest
      | some it => scanContinuacao it m (rest.take 2) ::
          processarLinhasTabela m rest

/-- `_processar_tabela_itens` (extractor.py:1213-1263). -/
def processarTabelaItens (tabela : List (List (Option PyStr))) :
    List ItemExtraido :=
  if tabela.length < 2 then []
  else
    match encontrarCabecalhoItens tabela with
    | none => []
    | some idxCab =>
      match tabela.get? idxCab with
      | none => []
      | some cabecalho =>
        let m := mapearColunas cabecalho
        if m.item = none then []
        else processarLinhasTabela m (tabela.drop (idxCab + 1))

/-- Counterexample to C2: on the synthetic table with header
`ITEM / DESCRIÇÃO / UND / QTD / P.UNT / P.TOTAL` the parser's single item
has `p_total = None`, not 50.0 — the `P.TOTAL` token (with a dot) is not
matched by the total-price column pattern `P[\s]*TOTAL|V[\.\s]*TOTAL`,
so the total column is never mapped. -/
theorem c2_contraexemplo :
    (processarTabelaItens
      [[some "ITEM".toList, some "DESCRIÇÃO".toList, some "UND".toList,
          some "QTD".toList, some "P.UNT".toList, some "P.TOTAL".toList],
        [some "1".toList, some "X".toList, some "UN".toList,
          some "10,000".toList, some "R$ 5,00".toList,
          some "R$ 50,00".toList]]).map (fun it => it.p_total) = [none]
    ∧ (none : Option ℚ) ≠ some 50
    ∧ (mapearColunas
        [some "ITEM".toList, some "DESCRIÇÃO".toList, some "UND".toList,
          some "QTD".toList, some "P.UNT".toList,
          some "P.TOTAL".toList]).p_total = none := by
  refine ⟨by decide, by decide, by decide⟩

/-- C2 (amended): on the synthetic table the native item-table parser
returns exactly one item with `item = 1`, `qtd = 10.0`, `p_unit = 5.0`
and `p_total = None` (the `P.TOTAL` header is not recognised by the
column mapper, whose pattern admits a space but not a dot after `P`). -/
theorem c2_tabela_itens_nativa :
    processarTabelaItens
      [[some "ITEM".toList, some "DESCRIÇÃO".toList, some "UND".toList,
          some "QTD".toList, some "P.UNT".toList, some "P.TOTAL".toList],
        [some "1".toList, some "X".toList, some "UN".toList,
          some "10,000".toList, some "R$ 5,00".toList,
          some "R$ 50,00".toList]] =
      [{ item := 1, catserv := none, descricao := some "X".toList,
          und := some "UN".toList, qtd := some 10, nd_si := none,
          p_unit := some 5, p_total := none }] := by
  have h10 : parseValorBr "10,000".toList = some 10 := by
    rw [show parseValorBr "10,000".toList = pyFloat "10.000".toList from by
      rw [parseValorBr, if_neg (by decide)]
      exact congrArg pyFloat (by decide)]
    rw [pyFloat, show pyFloatDecomp "10.000".toList = some (false, 10, 0, 3)
      from by decide]
    norm_num
  have h5 : parseValorBr "5,00".toList = some 5 := by
    rw [show parseValorBr "5,00".toList = pyFloat "5.00".toList from by
      rw [parseValorBr, if_neg (by decide)]
      exact congrArg pyFloat (by decide)]
    rw [pyFloat, show pyFloatDecomp "5.00".toList = some (false, 5, 0, 2)
      from by decide]
    norm_num
  rw [show processarTabelaItens
      [[some "ITEM".toList, some "DESCRIÇÃO".toList, some "UND".toList,
          some "QTD".toList, some "P.UNT".toList, some "P.TOTAL".toList],
        [some "1".toList, some "X".toList, some "UN".toList,
          some "10,000".toList, some "R$ 5,00".toList,
          some "R$ 50,00".toList]] =
      [{ item := 1, catserv := none, descricao := some "X".toList,
          und := some "UN".toList, qtd := parseValorBr "10,000".toList,
          nd_si := none, p_unit := parseValorBr "5,00".toList,
          p_total := none }] from rfl, h10, h5]

end Extractor
